import Mathlib

/-!
Verification development for the reg_agent repository: a shallow embedding of
the classify → assess → route pipeline, the task router, and the evaluation
harness, together with theorems settling the specified properties.

Modelling conventions:
* Python floats are modelled as exact rationals (`ℚ`); machine rounding is not
  modelled.
* Timestamps are modelled abstractly as integers counting days, so
  `datetime.utcnow()` becomes an explicit `now : ℤ` parameter and
  `timedelta(days = d)` becomes `+ d`.
* UUIDs are modelled as natural numbers.
* Python exceptions are modelled with `Except String`; a `try/except` block
  becomes a `match` on the `Except` value of its body.
* The persistent store is modelled as an explicit state record threaded
  through the pipeline functions; external LLM calls (classifier, gap
  analyzer) are oracle parameters.
-/

namespace RegAgent

/-! ## Control catalog (`src/framework/controls.py`) -/

structure Control where
  id : String
  name : String
  pillar : String
  description : String
  evidence_types : List String
  typical_owners : List String
deriving Repr, DecidableEq

def CONTROLS : List Control := [
  { id := "IC-01", name := "Transaction Monitoring Program", pillar := "internal_controls",
    description := "Automated and manual systems to detect suspicious transactions, including threshold-based alerts, behavioral analytics, and pattern detection for money laundering, structuring, and other illicit activity.",
    evidence_types := ["TM system configuration", "Alert rules documentation", "Tuning reports", "Alert disposition logs"],
    typical_owners := ["AML Operations", "Risk Management"] },
  { id := "IC-02", name := "Suspicious Activity Escalation Procedures", pillar := "internal_controls",
    description := "Documented procedures for escalating potentially suspicious activity from front-line staff to the BSA/AML team, including timelines, documentation requirements, and decision authority.",
    evidence_types := ["Escalation policy", "Case management records", "SAR referral logs"],
    typical_owners := ["AML Operations", "BSA Officer"] },
  { id := "IC-03", name := "Sanctions Screening Program", pillar := "internal_controls",
    description := "Real-time and batch screening of customers, transactions, and counterparties against OFAC SDN lists, sectoral sanctions, and other restricted party lists.",
    evidence_types := ["Screening system configuration", "List update logs", "Hit disposition records", "False positive analysis"],
    typical_owners := ["AML Operations", "Compliance Training"] },
  { id := "IC-04", name := "Risk Assessment Methodology", pillar := "internal_controls",
    description := "Enterprise-wide BSA/AML risk assessment identifying inherent risks by customer type, product, geography, and transaction channel, with controls mapping and residual risk ratings.",
    evidence_types := ["Risk assessment document", "Risk rating matrices", "Board approval records"],
    typical_owners := ["Risk Management", "BSA Officer"] },
  { id := "BSA-01", name := "BSA Officer Designation & Authority", pillar := "bsa_officer",
    description := "Formal designation of a qualified BSA/AML Officer with sufficient authority, independence, and access to resources to manage the compliance program.",
    evidence_types := ["Board resolution", "Job description", "Reporting structure documentation"],
    typical_owners := ["BSA Officer", "Legal & Regulatory Affairs"] },
  { id := "BSA-02", name := "Board Reporting & Oversight", pillar := "bsa_officer",
    description := "Regular reporting to the Board or Board committee on BSA/AML program status, metrics, examination findings, and significant suspicious activity trends.",
    evidence_types := ["Board meeting minutes", "BSA reports to Board", "Committee charters"],
    typical_owners := ["BSA Officer", "Internal Audit"] },
  { id := "BSA-03", name := "Regulatory Examination Management", pillar := "bsa_officer",
    description := "Processes for preparing for, responding to, and remediating findings from FinCEN, state, and other regulatory examinations of the BSA/AML program.",
    evidence_types := ["Exam response files", "Remediation tracking", "MRA/MRIA status reports"],
    typical_owners := ["BSA Officer", "Legal & Regulatory Affairs"] },
  { id := "BSA-04", name := "Program Documentation & Updates", pillar := "bsa_officer",
    description := "Maintenance of comprehensive BSA/AML policies and procedures with version control, regular review cycles, and updates for regulatory changes.",
    evidence_types := ["Policy repository", "Version history", "Annual review sign-offs"],
    typical_owners := ["BSA Officer", "Compliance Training"] },
  { id := "TR-01", name := "New Employee BSA Training", pillar := "training",
    description := "Mandatory BSA/AML training for all new employees within 30 days of hire, covering legal requirements, red flags, and escalation procedures.",
    evidence_types := ["Training curriculum", "Completion records", "Quiz scores"],
    typical_owners := ["Compliance Training", "Human Resources"] },
  { id := "TR-02", name := "Role-Based AML Training", pillar := "training",
    description := "Specialized training for high-risk roles (customer onboarding, transaction monitoring analysts, customer support) with job-specific scenarios and typologies.",
    evidence_types := ["Role-specific curricula", "Completion records by role", "Competency assessments"],
    typical_owners := ["Compliance Training", "AML Operations"] },
  { id := "TR-03", name := "Annual Refresher Training", pillar := "training",
    description := "Annual BSA/AML refresher training for all employees covering regulatory updates, new typologies, and lessons learned from internal cases.",
    evidence_types := ["Annual training materials", "Completion tracking", "Acknowledgment records"],
    typical_owners := ["Compliance Training"] },
  { id := "TR-04", name := "Training Records & Tracking", pillar := "training",
    description := "System for tracking training completion, sending reminders for overdue training, and generating compliance reports for examinations.",
    evidence_types := ["LMS reports", "Completion dashboards", "Exam-ready training summaries"],
    typical_owners := ["Compliance Training", "Human Resources"] },
  { id := "IT-01", name := "Annual Independent Audit", pillar := "independent_testing",
    description := "Annual independent audit of the BSA/AML program by qualified internal audit staff or external party, covering all Five Pillars.",
    evidence_types := ["Audit reports", "Scope documentation", "Auditor qualifications"],
    typical_owners := ["Internal Audit"] },
  { id := "IT-02", name := "Transaction Testing Sampling", pillar := "independent_testing",
    description := "Statistical sampling of transactions to test whether monitoring systems are detecting expected suspicious patterns and whether alerts are appropriately dispositioned.",
    evidence_types := ["Sampling methodology", "Test results", "Exception reports"],
    typical_owners := ["Internal Audit", "AML Operations"] },
  { id := "IT-03", name := "Finding Remediation Tracking", pillar := "independent_testing",
    description := "Formal tracking of audit and examination findings through remediation, with status reporting, root cause analysis, and verification of corrective actions.",
    evidence_types := ["Finding tracker", "Remediation evidence", "Closure approvals"],
    typical_owners := ["Internal Audit", "BSA Officer"] },
  { id := "IT-04", name := "Model Validation", pillar := "independent_testing",
    description := "Independent validation of transaction monitoring and sanctions screening models, including threshold analysis, above/below-the-line testing, and tuning recommendations.",
    evidence_types := ["Validation reports", "Model inventory", "Tuning recommendations"],
    typical_owners := ["Internal Audit", "Risk Management"] },
  { id := "CDD-01", name := "Customer Identification Program (CIP)", pillar := "customer_due_diligence",
    description := "Procedures for collecting and verifying customer identity at onboarding, including documentary and non-documentary verification methods for individuals and entities.",
    evidence_types := ["CIP procedures", "Verification logs", "Exception handling records"],
    typical_owners := ["AML Operations", "Customer Onboarding"] },
  { id := "CDD-02", name := "Beneficial Ownership Identification", pillar := "customer_due_diligence",
    description := "Collection and verification of beneficial ownership information for legal entity customers, including 25% ownership threshold and control prong requirements.",
    evidence_types := ["BO certification forms", "Ownership verification records", "Refresh documentation"],
    typical_owners := ["AML Operations", "Customer Onboarding"] },
  { id := "CDD-03", name := "Enhanced Due Diligence (EDD)", pillar := "customer_due_diligence",
    description := "Additional due diligence procedures for high-risk customers including PEPs, high-risk jurisdictions, and complex entity structures. Includes source of funds/wealth verification.",
    evidence_types := ["EDD procedures", "High-risk customer files", "PEP screening results"],
    typical_owners := ["AML Operations", "Risk Management"] },
  { id := "CDD-04", name := "Ongoing Customer Monitoring", pillar := "customer_due_diligence",
    description := "Continuous monitoring of customer activity against expected behavior, periodic refresh of CDD information, and trigger-based reviews for significant changes.",
    evidence_types := ["Monitoring rules", "Periodic review schedules", "Trigger event logs"],
    typical_owners := ["AML Operations", "Risk Management"] }]

def get_control_by_id (control_id : String) : Option Control :=
  CONTROLS.find? (fun c => c.id == control_id)

/-! ## Task routing (`src/agents/route/router.py`) -/

inductive TaskPriority where
  | low | medium | high | critical
deriving Repr, DecidableEq

def TaskPriority.value : TaskPriority → String
  | .low => "low"
  | .medium => "medium"
  | .high => "high"
  | .critical => "critical"

inductive TaskStatus where
  | pending | in_progress | completed
deriving Repr, DecidableEq

def PRIORITY_DUE_DAYS : List (String × ℤ) :=
  [("critical", 7), ("high", 14), ("medium", 30), ("low", 60)]

/-- Python `str.lower()` (ASCII case folding, the relevant range for the
severity strings of this system). -/
def pyLower (s : String) : String :=
  ⟨s.data.map Char.toLower⟩

def severity_to_priority (severity : String) : TaskPriority :=
  (([("critical", TaskPriority.critical), ("high", TaskPriority.high),
     ("medium", TaskPriority.medium), ("low", TaskPriority.low)]
    : List (String × TaskPriority)).lookup (pyLower severity)).getD TaskPriority.medium

/-- `datetime.utcnow() + timedelta(days=...)`, with time counted in days from
an explicit `now`. -/
def calculate_due_date (now : ℤ) (priority : TaskPriority) : ℤ :=
  now + (PRIORITY_DUE_DAYS.lookup priority.value).getD 30

def get_primary_owner (control_id : String) : String :=
  match get_control_by_id control_id with
  | some control =>
    match control.typical_owners with
    | owner :: _ => owner
    | [] => "BSA Officer"
  | none => "BSA Officer"

/-- A gap-analysis affected-control entry as the router sees it: a Python dict
read with `.get`, so every key is optional.  The keys produced by the gap
analyzer's `ControlGap.model_dump()` are `control_id`, `gap_description`,
`remediation_action`, `effort_level`; the router additionally reads the
(absent there) keys `gap_type` and `recommendation`. -/
structure ControlGapDict where
  control_id : Option String := none
  gap_description : Option String := none
  remediation_action : Option String := none
  effort_level : Option String := none
  gap_type : Option String := none
  recommendation : Option String := none
deriving Repr, DecidableEq

structure TaskCreate where
  regulation_id : Nat
  gap_analysis_id : Nat
  control_id : String
  title : String
  description : String
  assigned_team : String
  priority : TaskPriority
  status : TaskStatus
  due_date : ℤ
deriving Repr, DecidableEq

/-- Python `str.title()`: the first alphabetic character of every alphabetic
run is upper-cased, the rest lower-cased. -/
def pyTitleAux : Bool → List Char → List Char
  | _, [] => []
  | prevAlpha, c :: cs =>
    let c' := if c.isAlpha then (if prevAlpha then c.toLower else c.toUpper) else c
    c' :: pyTitleAux c.isAlpha cs

def pyTitle (s : String) : String :=
  ⟨pyTitleAux false s.data⟩

/-- The task built by the body of the `for control_gap in affected_controls`
loop once the control id has resolved to `control`. -/
def routerTask (regulation_id gap_analysis_id : Nat) (priority : TaskPriority)
    (due_date : ℤ) (regulation_title : String) (control_gap : ControlGapDict)
    (control_id : String) (control : Control) : TaskCreate :=
  let gap_type := control_gap.gap_type.getD "unknown"
  let recommendation := control_gap.recommendation.getD ""
  let title := "[" ++ control_id ++ "] Address " ++ gap_type ++ " gap in " ++ control.name
  let description_parts :=
    ["Regulation: " ++ regulation_title,
     "Control: " ++ control.name,
     "Pillar: " ++ pyTitle ((control.pillar).replace "_" " "),
     "Gap Type: " ++ gap_type] ++
    (if recommendation ≠ "" then ["Recommendation: " ++ recommendation] else [])
  let description := String.intercalate "\n" description_parts
  { regulation_id := regulation_id, gap_analysis_id := gap_analysis_id,
    control_id := control_id, title := title, description := description,
    assigned_team := get_primary_owner control_id,
    priority := priority, status := TaskStatus.pending, due_date := due_date }

/-- The body of the `for control_gap in affected_controls` loop: `none` means
`continue` (missing/empty control id, or unknown control id). -/
def taskFromControlGap (regulation_id gap_analysis_id : Nat) (priority : TaskPriority)
    (due_date : ℤ) (regulation_title : String) (control_gap : ControlGapDict) :
    Option TaskCreate :=
  match control_gap.control_id with
  | none => none
  | some control_id =>
    if control_id = "" then none
    else
      match get_control_by_id control_id with
      | none => none
      | some control =>
        some (routerTask regulation_id gap_analysis_id priority due_date
          regulation_title control_gap control_id control)

def generate_tasks_from_gap_analysis (now : ℤ) (regulation_id gap_analysis_id : Nat)
    (gap_severity : String) (affected_controls : List ControlGapDict)
    (regulation_title : String) : List TaskCreate :=
  let priority := severity_to_priority gap_severity
  let due_date := calculate_due_date now priority
  affected_controls.filterMap
    (taskFromControlGap regulation_id gap_analysis_id priority due_date regulation_title)

/-! ## Classifier / gap-analyzer structured outputs
(`src/agents/classify/prompts.py`, `src/agents/assess/prompts.py`) -/

/-- `ClassificationResult` pydantic model (validated classifier output).
The pydantic schema constrains `relevance_score` to `0..5` and `confidence`
to `[0,1]`; here those are stated as hypotheses where needed. -/
structure ClassificationResult where
  reasoning : String
  relevance_score : ℤ
  confidence : ℚ
  bsa_pillars : List String
  categories : List String
  requires_human_review : Bool
deriving Repr, DecidableEq

/-- `ControlGap` pydantic model from the gap analyzer. -/
structure ControlGap where
  control_id : String
  gap_description : String
  remediation_action : String
  effort_level : String
deriving Repr, DecidableEq

/-- `ControlGap.model_dump()`: the dict handed to the task router.  Its keys
are exactly the model's fields, so `gap_type` and `recommendation` are absent. -/
def ControlGap.model_dump (g : ControlGap) : ControlGapDict :=
  { control_id := some g.control_id, gap_description := some g.gap_description,
    remediation_action := some g.remediation_action, effort_level := some g.effort_level }

/-- `GapAnalysisResult` pydantic model (gap analyzer output);
`overall_severity` is an unconstrained string. -/
structure GapAnalysisResult where
  reasoning : String
  affected_controls : List ControlGap
  overall_severity : String
  total_effort_hours : ℤ
  summary : String
deriving Repr, DecidableEq

/-! ## Persisted rows (`src/models/document.py`) -/

def VALID_BSA_PILLARS : List String :=
  ["internal_controls", "bsa_officer", "training", "independent_testing",
   "customer_due_diligence"]

def GAP_SEVERITY_VALUES : List String := ["low", "medium", "high", "critical"]

structure ClassificationCreate where
  regulation_id : Nat
  relevance_score : ℤ
  confidence : ℚ
  bsa_pillars : List String
  categories_labels : List String
  classification_reasoning : String
  model_used : String
deriving Repr, DecidableEq

/-- Building a `ClassificationCreate` from classifier output: the
`RelevanceScore(...)` / `BSAPillar(...)` enum conversions and the pydantic
`confidence` bound raise `ValueError` on out-of-range input, modelled by
`none`. -/
def mkClassificationCreate (regulation_id : Nat) (result : ClassificationResult) :
    Option ClassificationCreate :=
  if 0 ≤ result.relevance_score ∧ result.relevance_score ≤ 5 ∧
      0 ≤ result.confidence ∧ result.confidence ≤ 1 ∧
      ∀ p ∈ result.bsa_pillars, p ∈ VALID_BSA_PILLARS then
    some { regulation_id := regulation_id,
           relevance_score := result.relevance_score,
           confidence := result.confidence,
           bsa_pillars := result.bsa_pillars,
           categories_labels := result.categories,
           classification_reasoning := result.reasoning,
           model_used := "gpt-4o-mini" }
  else none

structure GapAnalysisCreate where
  regulation_id : Nat
  affected_controls : List ControlGapDict
  gap_severity : String
  remediation_effort_hours : Option ℤ
  analysis_summary : String
  recommendations_reasoning : String
  model_used : String
deriving Repr, DecidableEq

/-- Building a `GapAnalysisCreate`: the `GapSeverity(...)` enum conversion
raises `ValueError` for a string outside the enum, modelled by `none`;
non-positive `total_effort_hours` becomes `None`. -/
def mkGapAnalysisCreate (regulation_id : Nat) (result : GapAnalysisResult) :
    Option GapAnalysisCreate :=
  if result.overall_severity ∈ GAP_SEVERITY_VALUES then
    some { regulation_id := regulation_id,
           affected_controls := result.affected_controls.map ControlGap.model_dump,
           gap_severity := result.overall_severity,
           remediation_effort_hours :=
             if 0 < result.total_effort_hours then some result.total_effort_hours else none,
           analysis_summary := result.summary,
           recommendations_reasoning := result.reasoning,
           model_used := "gpt-4o" }
  else none

/-! ## The persistent store and the pipeline environment -/

/-- The store rows the pipeline touches, keyed the way the pipeline queries
them (classifications and gap analyses by regulation id, tasks by gap
analysis id).  `nextGapId` models the id the store assigns to a newly created
gap-analysis row (returned as `data["id"]`). -/
structure Store where
  classifications : Nat → Option ClassificationCreate
  gapAnalyses : Nat → Option GapAnalysisCreate
  tasksByGap : Nat → List TaskCreate
  nextGapId : Nat

def emptyStore : Store :=
  { classifications := fun _ => none, gapAnalyses := fun _ => none,
    tasksByGap := fun _ => [], nextGapId := 0 }

/-- External-call oracles and store-failure switches for one pipeline run:
`classify` / `analyze` are the (possibly raising) LLM round trips;
`persistGapOk` / `persistTasksOk` model whether `db.create_gap_analysis` /
the first `db.create_task` raises.  `now` is the current time in days. -/
structure Env where
  classify : Except String ClassificationResult
  analyze : Except String GapAnalysisResult
  persistGapOk : Bool
  persistTasksOk : Bool
  now : ℤ

/-! ## Pipeline (`src/agents/classify/pipeline.py`) -/

def GAP_ANALYSIS_RELEVANCE_THRESHOLD : ℤ := 3

def GAP_ANALYSIS_CONFIDENCE_THRESHOLD : ℚ := 7/10

/-- `_trigger_task_generation`: returns `false` both when tasks already exist
for the gap analysis (idempotency skip) and when the `try` block raises
(task generation / persistence failure); `true` on success. -/
def triggerTaskGeneration (env : Env) (gap_analysis_id regulation_id : Nat)
    (gap_severity : String) (affected_controls : List ControlGapDict)
    (regulation_title : String) (s : Store) : Bool × Store :=
  if (s.tasksByGap gap_analysis_id) ≠ [] then (false, s)
  else
    let tasks := generate_tasks_from_gap_analysis env.now regulation_id gap_analysis_id
      gap_severity affected_controls regulation_title
    if env.persistTasksOk then
      (true, { s with tasksByGap := fun g =>
                 if g = gap_analysis_id then tasks else s.tasksByGap g })
    else (false, s)

/-- `_trigger_gap_analysis`: idempotency check, then a `try` block covering
the analyzer call, row construction, persistence and task generation; any
exception inside is caught and reported as `false`.  Returns `false` both for
the idempotency skip and for a caught failure; `true` on success. -/
def triggerGapAnalysis (env : Env) (regulation_id : Nat) (title : String)
    (s : Store) : Bool × Store :=
  match s.gapAnalyses regulation_id with
  | some _ => (false, s)
  | none =>
    match env.analyze with
    | .error _ => (false, s)
    | .ok result =>
      match mkGapAnalysisCreate regulation_id result with
      | none => (false, s)
      | some gap_create =>
        if env.persistGapOk then
          let gid := s.nextGapId
          let s₁ : Store :=
            { s with gapAnalyses := fun r =>
                       if r = regulation_id then some gap_create else s.gapAnalyses r,
                     nextGapId := gid + 1 }
          let t := triggerTaskGeneration env gid regulation_id result.overall_severity
            (result.affected_controls.map ControlGap.model_dump) title s₁
          (true, t.2)
        else (false, s)

structure PipelineOut where
  ret : Except String Bool
  store : Store
  classifierCalls : Nat
  gapTriggered : Bool

/-- `classify_and_store`: idempotency check, classifier call (its exception
propagates), row construction and persistence, then the threshold gate
deciding whether `_trigger_gap_analysis` runs.  `classifierCalls` counts
invocations of the external classifier; `gapTriggered` records whether the
gate fired. -/
def classify_and_store (env : Env) (regulation_id : Nat) (title : String)
    (s : Store) : PipelineOut :=
  match s.classifications regulation_id with
  | some _ => ⟨.ok false, s, 0, false⟩
  | none =>
    match env.classify with
    | .error e => ⟨.error e, s, 1, false⟩
    | .ok result =>
      match mkClassificationCreate regulation_id result with
      | none => ⟨.error "ValidationError", s, 1, false⟩
      | some classification =>
        let s₁ : Store :=
          { s with classifications := fun r =>
                     if r = regulation_id then some classification
                     else s.classifications r }
        if GAP_ANALYSIS_RELEVANCE_THRESHOLD ≤ result.relevance_score ∧
            GAP_ANALYSIS_CONFIDENCE_THRESHOLD ≤ result.confidence then
          let t := triggerGapAnalysis env regulation_id title s₁
          ⟨.ok true, t.2, 1, true⟩
        else ⟨.ok true, s₁, 1, false⟩

/-! ## Evaluation metrics (`src/evaluation/metrics.py`) -/

structure MultiLabelScores where
  precision : ℚ
  «recall» : ℚ
  f1 : ℚ
  true_positives : ℕ
  false_positives : ℕ
  false_negatives : ℕ
deriving Repr, DecidableEq

/-- `RelevanceScores`.  The source stores `rmse = sqrt(mean squared error)`,
an irrational real; it is modelled here by the squared value
`rmse_sq = mean squared error` (so `rmse = 0` iff `rmse_sq = 0`), keeping the
whole report inside `ℚ`. -/
structure RelevanceScores where
  mae : ℚ
  rmse_sq : ℚ
  tier_accuracy : ℚ
  exact_accuracy : ℚ
deriving Repr, DecidableEq

structure CalibrationScores where
  brier_score : ℚ
  calibration_error : ℚ
  human_review_accuracy : ℚ
deriving Repr, DecidableEq

/-- One entry of the `details` list built by `evaluate_classification`. -/
structure DetailRecord where
  document_id : String
  title : String
  expected_relevance : ℤ
  predicted_relevance : ℤ
  relevance_error : ℤ
  expected_pillars : List String
  predicted_pillars : List String
  pillar_match : Bool
  expected_categories : List String
  predicted_categories : List String
  category_match : Bool
  confidence : ℚ
  correct_within_tolerance : Bool
deriving Repr, DecidableEq

structure EvaluationReport where
  relevance : RelevanceScores
  pillars : MultiLabelScores
  categories : MultiLabelScores
  calibration : CalibrationScores
  total_cases : ℕ
  details : List DetailRecord
deriving Repr, DecidableEq

def relevance_to_tier (score : ℤ) : String :=
  if score ≤ 1 then "low"
  else if score ≤ 3 then "medium"
  else "high"

def score_relevance (predictions expected : List ℤ) : Except String RelevanceScores :=
  if predictions.length ≠ expected.length then
    .error "Prediction and expected lists must have same length"
  else
    let n := predictions.length
    if n = 0 then .ok ⟨0, 0, 0, 0⟩
    else
      let pairs := predictions.zip expected
      let abs_errors := pairs.map (fun pe => |pe.1 - pe.2|)
      let squared_errors := pairs.map (fun pe => (pe.1 - pe.2) ^ 2)
      let mae : ℚ := (abs_errors.sum : ℤ) / n
      let rmse_sq : ℚ := (squared_errors.sum : ℤ) / n
      let exact_matches := pairs.countP (fun pe => pe.1 == pe.2)
      let exact_accuracy : ℚ := exact_matches / n
      let tier_matches := pairs.countP
        (fun pe => relevance_to_tier pe.1 == relevance_to_tier pe.2)
      let tier_accuracy : ℚ := tier_matches / n
      .ok ⟨mae, rmse_sq, tier_accuracy, exact_accuracy⟩

def score_multilabel (predictions expected : List (Finset String)) :
    Except String MultiLabelScores :=
  if predictions.length ≠ expected.length then
    .error "Prediction and expected lists must have same length"
  else
    let totals := (predictions.zip expected).foldl
      (fun (acc : ℕ × ℕ × ℕ) pe =>
        (acc.1 + (pe.1 ∩ pe.2).card, acc.2.1 + (pe.1 \ pe.2).card,
         acc.2.2 + (pe.2 \ pe.1).card))
      (0, 0, 0)
    let total_tp := totals.1
    let total_fp := totals.2.1
    let total_fn := totals.2.2
    let precision : ℚ :=
      if 0 < total_tp + total_fp then (total_tp : ℚ) / (total_tp + total_fp) else 0
    let «recall» : ℚ :=
      if 0 < total_tp + total_fn then (total_tp : ℚ) / (total_tp + total_fn) else 0
    let f1 : ℚ :=
      if 0 < precision + «recall» then 2 * precision * «recall» / (precision + «recall») else 0
    .ok ⟨precision, «recall», f1, total_tp, total_fp, total_fn⟩

/-- `bin_idx = min(int(conf * 10), 9)`.  Python `int()` truncates toward
zero, which agrees with the floor used here for the schema-guaranteed range
`conf ≥ 0`; negative confidences (impossible for validated classifier
output) are not modelled. -/
def binIdx (conf : ℚ) : ℕ :=
  min (Int.toNat ⌊conf * 10⌋) 9

def score_calibration (confidences : List ℚ) (correct : List Bool)
    (human_review_pred human_review_expected : List Bool) : CalibrationScores :=
  let n := confidences.length
  if n = 0 then ⟨0, 0, 0⟩
  else
    let pairs := confidences.zip correct
    let brier_score : ℚ :=
      (pairs.map (fun p => (p.1 - (if p.2 then 1 else 0)) ^ 2)).sum / n
    let bins : List (List (ℚ × Bool)) :=
      (List.range 10).map (fun b => pairs.filter (fun p => binIdx p.1 == b))
    let calibration_errors : List ℚ :=
      (bins.filter (fun bin_data => bin_data ≠ [])).map (fun bin_data =>
        let avg_conf : ℚ := (bin_data.map Prod.fst).sum / bin_data.length
        let actual_acc : ℚ := (bin_data.countP Prod.snd : ℚ) / bin_data.length
        |avg_conf - actual_acc| * bin_data.length)
    let calibration_error : ℚ :=
      if calibration_errors ≠ [] then calibration_errors.sum / n else 0
    let hr_correct := (human_review_pred.zip human_review_expected).countP
      (fun p => p.1 == p.2)
    let human_review_accuracy : ℚ :=
      if human_review_pred ≠ [] then (hr_correct : ℚ) / human_review_pred.length else 0
    ⟨brier_score, calibration_error, human_review_accuracy⟩

structure PredictedClassification where
  relevance_score : ℤ
  confidence : ℚ
  bsa_pillars : List String
  categories : List String
  requires_human_review : Bool
deriving Repr, DecidableEq

/-! ## Benchmark test cases (`src/evaluation/loader.py`) -/

structure ExpectedClassification where
  relevance_score : ℤ
  confidence : ℚ
  bsa_pillars : List String
  categories : List String
  requires_human_review : Bool
deriving Repr, DecidableEq

structure TestCase where
  document_id : String
  title : String
  expected : ExpectedClassification
  rationale : String
deriving Repr, DecidableEq

def evaluate_classification (test_cases : List TestCase)
    (predictions : List PredictedClassification) (relevance_tolerance : ℤ := 1) :
    Except String EvaluationReport := do
  if test_cases.length ≠ predictions.length then
    throw "Must have same number of test cases and predictions"
  let pred_relevance := predictions.map (·.relevance_score)
  let exp_relevance := test_cases.map (·.expected.relevance_score)
  let relevance_scores ← score_relevance pred_relevance exp_relevance
  let pred_pillars := predictions.map (fun p => p.bsa_pillars.toFinset)
  let exp_pillars := test_cases.map (fun tc => tc.expected.bsa_pillars.toFinset)
  let pillar_scores ← score_multilabel pred_pillars exp_pillars
  let pred_categories := predictions.map (fun p => p.categories.toFinset)
  let exp_categories := test_cases.map (fun tc => tc.expected.categories.toFinset)
  let category_scores ← score_multilabel pred_categories exp_categories
  let correct := (predictions.zip test_cases).map
    (fun pt => decide (|pt.1.relevance_score - pt.2.expected.relevance_score| ≤ relevance_tolerance))
  let confidences := predictions.map (·.confidence)
  let human_review_pred := predictions.map (·.requires_human_review)
  let human_review_expected := test_cases.map (·.expected.requires_human_review)
  let calibration_scores := score_calibration confidences correct
    human_review_pred human_review_expected
  let details := (test_cases.zip predictions).map (fun (tp : TestCase × PredictedClassification) =>
    ({ document_id := tp.1.document_id
       title := tp.1.title
       expected_relevance := tp.1.expected.relevance_score
       predicted_relevance := tp.2.relevance_score
       relevance_error := |tp.2.relevance_score - tp.1.expected.relevance_score|
       expected_pillars := tp.1.expected.bsa_pillars
       predicted_pillars := tp.2.bsa_pillars
       pillar_match := tp.2.bsa_pillars.toFinset == tp.1.expected.bsa_pillars.toFinset
       expected_categories := tp.1.expected.categories
       predicted_categories := tp.2.categories
       category_match := tp.2.categories.toFinset == tp.1.expected.categories.toFinset
       confidence := tp.2.confidence
       correct_within_tolerance :=
         decide (|tp.2.relevance_score - tp.1.expected.relevance_score| ≤ relevance_tolerance) }
      : DetailRecord))
  return { relevance := relevance_scores, pillars := pillar_scores,
           categories := category_scores, calibration := calibration_scores,
           total_cases := test_cases.length, details := details }

/-! ## Concurrent batch classification (`src/agents/classify/client.py`) -/

structure DocumentInput where
  id : String
  title : String
  source : String
  published_date : String
  content : String
deriving Repr, DecidableEq

structure BatchResult where
  id : String
  result : Option ClassificationResult
  error : Option String
deriving Repr, DecidableEq

/-- The worker body `classify_one(idx, doc)`: one full classify round trip
whose exception is caught and recorded as the item's error. -/
def classify_one (oracle : DocumentInput → Except String ClassificationResult)
    (idx : ℕ) (doc : DocumentInput) : ℕ × BatchResult :=
  match oracle doc with
  | .ok result => (idx, ⟨doc.id, some result, none⟩)
  | .error e => (idx, ⟨doc.id, none, some e⟩)

/-- One `as_completed` iteration: the future for index `i` has completed and
its result is written into slot `i` (`results[idx] = batch_result`). -/
def batchStep (oracle : DocumentInput → Except String ClassificationResult)
    (documents : List DocumentInput) (results : List (Option BatchResult))
    (i : ℕ) : List (Option BatchResult) :=
  match documents[i]? with
  | some doc => results.set i (some (classify_one oracle i doc).2)
  | none => results

/-- `classify_documents_batch`: a slot array `[None] * len(documents)` into
which each completed future writes at its own index.  The scheduling of the
thread pool is abstracted into `completionOrder`, the order in which
`as_completed` yields the futures — any permutation of the indices. -/
def classify_documents_batch
    (oracle : DocumentInput → Except String ClassificationResult)
    (documents : List DocumentInput) (completionOrder : List ℕ) :
    List (Option BatchResult) :=
  completionOrder.foldl (batchStep oracle documents)
    (List.replicate documents.length none)

/-- The batch viewed after completion: by the order-independence theorem for
`classify_documents_batch`, every slot holds the result of its own document,
which is this sequential list. -/
def classify_documents_batch_run
    (oracle : DocumentInput → Except String ClassificationResult)
    (documents : List DocumentInput) : List BatchResult :=
  documents.enum.map (fun id => (classify_one oracle id.1 id.2).2)

/-! ## Evaluation runner (`src/evaluation/run_eval.py`) -/

/-- A regulation row as returned by
`db.get_regulation_by_document_id`, restricted to the keys the runner reads
(each read with `.get` and a default, except `title`). -/
structure Regulation where
  title : String
  source : Option String
  published_date : Option String
  content : Option String
deriving Repr, DecidableEq

structure SkipRec where
  document_id : String
  reason : String
deriving Repr, DecidableEq

def mkDocumentInput (tc : TestCase) (regulation : Regulation) : DocumentInput :=
  { id := tc.document_id, title := regulation.title,
    source := regulation.source.getD "unknown",
    published_date := regulation.published_date.getD "",
    content := regulation.content.getD regulation.title }

structure ResolvePhaseOut where
  skipped : List SkipRec
  documents : List DocumentInput
  tcmap : String → Option TestCase

/-- The first loop of `run_evaluation`: resolve each benchmark case's
document; unresolvable cases are recorded as skipped with reason
`"not_in_db"`, resolvable ones are queued for classification and entered
into the `test_case_map` dict (later entries overwrite earlier ones, as in a
Python dict). -/
def resolvePhase (resolve : String → Option Regulation) :
    List TestCase → ResolvePhaseOut
  | [] => ⟨[], [], fun _ => none⟩
  | tc :: rest =>
    match resolve tc.document_id with
    | none =>
      let r := resolvePhase resolve rest
      ⟨⟨tc.document_id, "not_in_db"⟩ :: r.skipped, r.documents, r.tcmap⟩
    | some regulation =>
      let r := resolvePhase resolve rest
      ⟨r.skipped, mkDocumentInput tc regulation :: r.documents,
       fun k =>
         match r.tcmap k with
         | some v => some v
         | none => if k = tc.document_id then some tc else none⟩

def mkPredicted (r : ClassificationResult) : PredictedClassification :=
  ⟨r.relevance_score, r.confidence, r.bsa_pillars, r.categories,
   r.requires_human_review⟩

/-- The second loop of `run_evaluation`: batch results with a recorded error
are appended to the skip list, the rest become (prediction, test case)
pairs via the `test_case_map` lookup (whose `KeyError`, impossible for maps
built by `resolvePhase`, would propagate). -/
def collectResults (tcmap : String → Option TestCase) :
    List BatchResult →
    Except String (List SkipRec × List (PredictedClassification × TestCase))
  | [] => .ok ([], [])
  | br :: rest =>
    match br.error with
    | some e => do
      let (sk, ps) ← collectResults tcmap rest
      return (⟨br.id, e⟩ :: sk, ps)
    | none =>
      match br.result with
      | none => .error "AttributeError"
      | some result =>
        match tcmap br.id with
        | none => .error "KeyError"
        | some tc => do
          let (sk, ps) ← collectResults tcmap rest
          return (sk, (mkPredicted result, tc) :: ps)

/-- `run_evaluation`: resolve, classify in bulk, pair predictions back with
their cases, raise if zero cases could be evaluated, otherwise score.  The
classifier batch is represented by its order-independent value
`classify_documents_batch_run`. -/
def run_evaluation (oracle : DocumentInput → Except String ClassificationResult)
    (resolve : String → Option Regulation) (test_cases : List TestCase) :
    Except String (EvaluationReport × List SkipRec) := do
  let rp := resolvePhase resolve test_cases
  let batch_results := classify_documents_batch_run oracle rp.documents
  let collected ← collectResults rp.tcmap batch_results
  let skipped := rp.skipped ++ collected.1
  let predictions := (collected.2).map Prod.fst
  let valid_cases := (collected.2).map Prod.snd
  if valid_cases = [] then
    throw "No test cases could be evaluated - check DB contents"
  let report ← evaluate_classification valid_cases predictions 1
  return (report, skipped)

/-! ## Helper lemmas and spec-side predicates -/

/-- A gap entry the router turns into a task: a present, non-empty control id
that resolves in the control catalog. -/
def resolvableGap (cg : ControlGapDict) : Bool :=
  match cg.control_id with
  | none => false
  | some cid => cid ≠ "" && (get_control_by_id cid).isSome

theorem get_primary_owner_of_found (cid : String) (control : Control)
    (h : get_control_by_id cid = some control) :
    get_primary_owner cid = control.typical_owners.headD "BSA Officer" := by
  unfold get_primary_owner
  rw [h]
  cases howners : control.typical_owners with
  | nil => simp [howners]
  | cons a l => simp [howners]

theorem routerTask_fields (rid gid : Nat) (p : TaskPriority) (d : ℤ)
    (t : String) (cg : ControlGapDict) (cid : String) (control : Control) :
    (routerTask rid gid p d t cg cid control).control_id = cid ∧
    (routerTask rid gid p d t cg cid control).assigned_team = get_primary_owner cid ∧
    (routerTask rid gid p d t cg cid control).priority = p ∧
    (routerTask rid gid p d t cg cid control).due_date = d :=
  ⟨rfl, rfl, rfl, rfl⟩

theorem taskFromControlGap_cases (rid gid : Nat) (p : TaskPriority) (d : ℤ)
    (t : String) (cg : ControlGapDict) :
    (resolvableGap cg = false ∧ taskFromControlGap rid gid p d t cg = none) ∨
    (∃ cid control,
      resolvableGap cg = true ∧
      cg.control_id = some cid ∧ get_control_by_id cid = some control ∧
      taskFromControlGap rid gid p d t cg =
        some (routerTask rid gid p d t cg cid control)) := by
  obtain ⟨cido, gd, ra, el, gt, rec⟩ := cg
  cases cido with
  | none => exact Or.inl ⟨rfl, rfl⟩
  | some cid =>
    by_cases hemp : cid = ""
    · subst hemp
      refine Or.inl ⟨?_, ?_⟩
      · simp [resolvableGap]
      · simp [taskFromControlGap]
    · cases hctrl : get_control_by_id cid with
      | none =>
        refine Or.inl ⟨?_, ?_⟩
        · simp [resolvableGap, hctrl]
        · simp [taskFromControlGap, hemp, hctrl]
      | some control =>
        refine Or.inr ⟨cid, control, ?_, rfl, hctrl, ?_⟩
        · simp [resolvableGap, hemp, hctrl]
        · simp [taskFromControlGap, hemp, hctrl]

theorem taskFromControlGap_isSome_iff (rid gid : Nat) (p : TaskPriority) (d : ℤ)
    (t : String) (cg : ControlGapDict) :
    (taskFromControlGap rid gid p d t cg).isSome = resolvableGap cg := by
  rcases taskFromControlGap_cases rid gid p d t cg with ⟨h1, h2⟩ | ⟨cid, c, h1, _, _, h2⟩
  · rw [h1, h2]; rfl
  · rw [h1, h2]; rfl

/-- C8/C9 theorems below are phrased over this abbreviation of the router
output. -/
theorem generate_tasks_eq_filterMap (now : ℤ) (rid gid : Nat) (sev : String)
    (acs : List ControlGapDict) (title : String) :
    generate_tasks_from_gap_analysis now rid gid sev acs title =
      acs.filterMap (taskFromControlGap rid gid (severity_to_priority sev)
        (calculate_due_date now (severity_to_priority sev)) title) := rfl

/-! ## C8: severity → priority mapping and due-date offsets -/

/-- C8: the Task Router maps severity to priority via a total,
case-insensitive mapping over critical/high/medium/low, any unrecognized
severity defaulting to medium without error; every task of a batch gets the
single due date `now + offset(priority)` with offsets critical=7d, high=14d,
medium=30d, low=60d; severity "critical" yields priority CRITICAL and due
date now+7d, and an unrecognized severity yields MEDIUM and now+30d. -/
theorem c8_severity_priority_and_due_dates (now : ℤ) :
    (∀ s₁ s₂ : String, pyLower s₁ = pyLower s₂ →
      severity_to_priority s₁ = severity_to_priority s₂) ∧
    severity_to_priority "critical" = TaskPriority.critical ∧
    calculate_due_date now TaskPriority.critical = now + 7 ∧
    calculate_due_date now TaskPriority.high = now + 14 ∧
    calculate_due_date now TaskPriority.medium = now + 30 ∧
    calculate_due_date now TaskPriority.low = now + 60 ∧
    (∀ severity : String,
      pyLower severity ∉ ["critical", "high", "medium", "low"] →
      severity_to_priority severity = TaskPriority.medium ∧
      calculate_due_date now (severity_to_priority severity) = now + 30) ∧
    (∀ (rid gid : Nat) (sev title : String) (acs : List ControlGapDict),
      ∀ task ∈ generate_tasks_from_gap_analysis now rid gid sev acs title,
        task.priority = severity_to_priority sev ∧
        task.due_date = calculate_due_date now (severity_to_priority sev)) := by
  refine ⟨?_, rfl, rfl, rfl, rfl, rfl, ?_, ?_⟩
  · intro s₁ s₂ h
    unfold severity_to_priority
    rw [h]
  · intro severity h
    simp only [List.mem_cons, List.not_mem_nil, or_false, not_or] at h
    obtain ⟨h1, h2, h3, h4⟩ := h
    have e1 : (pyLower severity == "critical") = false := beq_eq_false_iff_ne.mpr h1
    have e2 : (pyLower severity == "high") = false := beq_eq_false_iff_ne.mpr h2
    have e3 : (pyLower severity == "medium") = false := beq_eq_false_iff_ne.mpr h3
    have e4 : (pyLower severity == "low") = false := beq_eq_false_iff_ne.mpr h4
    have hp : severity_to_priority severity = TaskPriority.medium := by
      simp [severity_to_priority, List.lookup, e1, e2, e3, e4]
    exact ⟨hp, by rw [hp]; rfl⟩
  · intro rid gid sev title acs task htask
    rw [generate_tasks_eq_filterMap, List.mem_filterMap] at htask
    obtain ⟨cg, _, hcg⟩ := htask
    rcases taskFromControlGap_cases rid gid (severity_to_priority sev)
        (calculate_due_date now (severity_to_priority sev)) title cg with
      ⟨_, hnone⟩ | ⟨cid, control, _, _, _, hsome⟩
    · rw [hnone] at hcg; cases hcg
    · rw [hsome] at hcg
      injection hcg with h
      subst h
      exact ⟨rfl, rfl⟩

/-- Witness for C8 at concrete inputs: "CRITICAL" (case-insensitivity),
"critical" offsets, and the unrecognized severity "urgent". -/
theorem c8_witness :
    severity_to_priority "CRITICAL" = TaskPriority.critical ∧
    calculate_due_date 0 TaskPriority.critical = 7 ∧
    severity_to_priority "urgent" = TaskPriority.medium ∧
    calculate_due_date 0 (severity_to_priority "urgent") = 30 := by
  have h := c8_severity_priority_and_due_dates 0
  refine ⟨?_, ?_, ?_, ?_⟩
  · exact (h.1 "CRITICAL" "critical" (by decide)).trans h.2.1
  · simpa using h.2.2.1
  · exact (h.2.2.2.2.2.2.1 "urgent" (by decide)).1
  · simpa using (h.2.2.2.2.2.2.1 "urgent" (by decide)).2

/-! ## C9: task generation from a gap analysis -/

/-- C9: one task per ControlGap whose control id resolves in the catalog, in
input order (witnessed by the control-id multiset equation); an unknown id is
skipped without aborting the batch; each task is assigned to the first
typical owner, defaulting to "BSA Officer" when the owner list is empty; and
duplicate ControlGaps produce duplicate tasks. -/
theorem c9_task_generation (now : ℤ) (rid gid : Nat) (sev title : String) :
    (∀ acs : List ControlGapDict,
      (generate_tasks_from_gap_analysis now rid gid sev acs title).map
          (fun task => task.control_id) =
        (acs.filter resolvableGap).filterMap (fun cg => cg.control_id)) ∧
    (∀ (pre post : List ControlGapDict) (cg : ControlGapDict),
      resolvableGap cg = false →
      generate_tasks_from_gap_analysis now rid gid sev (pre ++ cg :: post) title =
        generate_tasks_from_gap_analysis now rid gid sev (pre ++ post) title) ∧
    (∀ acs : List ControlGapDict,
      ∀ task ∈ generate_tasks_from_gap_analysis now rid gid sev acs title,
        ∃ control, get_control_by_id task.control_id = some control ∧
          task.assigned_team = control.typical_owners.headD "BSA Officer") ∧
    (∀ cg : ControlGapDict, resolvableGap cg = true →
      (generate_tasks_from_gap_analysis now rid gid sev [cg, cg] title).length = 2) := by
  refine ⟨?_, ?_, ?_, ?_⟩
  · intro acs
    induction acs with
    | nil => rfl
    | cons cg rest ih =>
      rw [generate_tasks_eq_filterMap] at ih ⊢
      rcases taskFromControlGap_cases rid gid (severity_to_priority sev)
          (calculate_due_date now (severity_to_priority sev)) title cg with
        ⟨hres, hnone⟩ | ⟨cid, control, hres, hcid, _, hsome⟩
      · rw [List.filterMap_cons, hnone, List.filter_cons, hres]
        simpa using ih
      · rw [List.filterMap_cons, hsome, List.filter_cons, hres]
        simp only [if_true, List.map_cons, List.filterMap_cons, hcid, ih]
        rfl
  · intro pre post cg hres
    rw [generate_tasks_eq_filterMap, generate_tasks_eq_filterMap,
      List.filterMap_append, List.filterMap_append, List.filterMap_cons]
    rcases taskFromControlGap_cases rid gid (severity_to_priority sev)
        (calculate_due_date now (severity_to_priority sev)) title cg with
      ⟨_, hnone⟩ | ⟨_, _, hres', _, _, _⟩
    · rw [hnone]
    · rw [hres'] at hres; cases hres
  · intro acs task htask
    rw [generate_tasks_eq_filterMap, List.mem_filterMap] at htask
    obtain ⟨cg, _, hcg⟩ := htask
    rcases taskFromControlGap_cases rid gid (severity_to_priority sev)
        (calculate_due_date now (severity_to_priority sev)) title cg with
      ⟨_, hnone⟩ | ⟨cid, control, _, _, hctrl, hsome⟩
    · rw [hnone] at hcg; cases hcg
    · rw [hsome] at hcg
      injection hcg with h
      subst h
      refine ⟨control, hctrl, ?_⟩
      exact get_primary_owner_of_found cid control hctrl
  · intro cg hres
    rcases taskFromControlGap_cases rid gid (severity_to_priority sev)
        (calculate_due_date now (severity_to_priority sev)) title cg with
      ⟨hres', _⟩ | ⟨cid, control, _, _, _, hsome⟩
    · rw [hres'] at hres; cases hres
    · rw [generate_tasks_eq_filterMap]
      simp [List.filterMap_cons, hsome]

/-- A resolvable gap entry (IC-01) and an unresolvable one (XX-99), for the
C9 witness. -/
def c9goodGap : ControlGapDict :=
  { control_id := some "IC-01", gap_type := some "coverage",
    recommendation := some "Expand monitoring rules" }

def c9badGap : ControlGapDict := { control_id := some "XX-99" }

/-- Witness for C9: a concrete batch with one resolvable and one unknown
control id, skip of the unknown id, ownership, and in-batch duplication. -/
theorem c9_witness :
    (generate_tasks_from_gap_analysis 0 1 2 "high" [c9goodGap, c9badGap] "Reg").map
        (fun task => task.control_id) = ["IC-01"] ∧
    generate_tasks_from_gap_analysis 0 1 2 "high" ([] ++ c9badGap :: [c9goodGap]) "Reg" =
      generate_tasks_from_gap_analysis 0 1 2 "high" ([] ++ [c9goodGap]) "Reg" ∧
    (∀ task ∈ generate_tasks_from_gap_analysis 0 1 2 "high" [c9goodGap] "Reg",
      ∃ control, get_control_by_id task.control_id = some control ∧
        task.assigned_team = control.typical_owners.headD "BSA Officer") ∧
    (generate_tasks_from_gap_analysis 0 1 2 "high" [c9goodGap, c9goodGap] "Reg").length = 2 := by
  have h := c9_task_generation 0 1 2 "high" "Reg"
  refine ⟨?_, ?_, ?_, ?_⟩
  · rw [h.1 [c9goodGap, c9badGap]]
    decide
  · exact h.2.1 [] [c9goodGap] c9badGap (by decide)
  · exact h.2.2.1 [c9goodGap]
  · exact h.2.2.2 c9goodGap (by decide)

/-! ## Pipeline store-preservation lemmas -/

theorem triggerTaskGeneration_preserves (env : Env) (gid rid : Nat)
    (sev : String) (acs : List ControlGapDict) (title : String) (s : Store) :
    (triggerTaskGeneration env gid rid sev acs title s).2.classifications =
      s.classifications ∧
    (triggerTaskGeneration env gid rid sev acs title s).2.gapAnalyses =
      s.gapAnalyses := by
  unfold triggerTaskGeneration
  split
  · exact ⟨rfl, rfl⟩
  · split
    · exact ⟨rfl, rfl⟩
    · exact ⟨rfl, rfl⟩

theorem triggerGapAnalysis_classifications (env : Env) (rid : Nat)
    (title : String) (s : Store) :
    (triggerGapAnalysis env rid title s).2.classifications = s.classifications := by
  cases hg : s.gapAnalyses rid with
  | some g => simp only [triggerGapAnalysis, hg]
  | none =>
    cases ha : env.analyze with
    | error e => simp only [triggerGapAnalysis, hg, ha]
    | ok result =>
      cases hm : mkGapAnalysisCreate rid result with
      | none => simp only [triggerGapAnalysis, hg, ha, hm]
      | some gc =>
        by_cases hp : env.persistGapOk
        · simp only [triggerGapAnalysis, hg, ha, hm, hp, if_true]
          rw [(triggerTaskGeneration_preserves env s.nextGapId rid
            result.overall_severity (result.affected_controls.map ControlGap.model_dump)
            title _).1]
        · simp only [triggerGapAnalysis, hg, ha, hm, hp, if_false,
            Bool.false_eq_true]

/-! ## C1: the relevance/confidence gate -/

/-- Fixture: classifier output carrying only the gate-relevant fields. -/
def gateResult (rel : ℤ) (conf : ℚ) : ClassificationResult :=
  { reasoning := "r", relevance_score := rel, confidence := conf,
    bsa_pillars := [], categories := [], requires_human_review := false }

/-- Fixture: environment whose classifier returns `gateResult rel conf`. -/
def gateEnv (rel : ℤ) (conf : ℚ) : Env :=
  { classify := .ok (gateResult rel conf), analyze := .error "unavailable",
    persistGapOk := true, persistTasksOk := true, now := 0 }

/-- The gate of `classify_and_store`, isolated: for a not-yet-classified
document with a schema-valid classifier result, `gapTriggered` holds iff
both thresholds are met. -/
theorem classify_and_store_gate (env : Env) (result : ClassificationResult)
    (rid : Nat) (title : String) (s : Store)
    (hnone : s.classifications rid = none)
    (hok : env.classify = .ok result)
    (hrel : 0 ≤ result.relevance_score ∧ result.relevance_score ≤ 5)
    (hconf : 0 ≤ result.confidence ∧ result.confidence ≤ 1)
    (hpil : ∀ p ∈ result.bsa_pillars, p ∈ VALID_BSA_PILLARS) :
    (classify_and_store env rid title s).gapTriggered = true ↔
      (3 ≤ result.relevance_score ∧ 7/10 ≤ result.confidence) := by
  have hmk : mkClassificationCreate rid result = some
      { regulation_id := rid, relevance_score := result.relevance_score,
        confidence := result.confidence, bsa_pillars := result.bsa_pillars,
        categories_labels := result.categories,
        classification_reasoning := result.reasoning, model_used := "gpt-4o-mini" } := by
    unfold mkClassificationCreate
    rw [if_pos]
    exact ⟨hrel.1, hrel.2, hconf.1, hconf.2, hpil⟩
  simp only [classify_and_store, GAP_ANALYSIS_RELEVANCE_THRESHOLD,
    GAP_ANALYSIS_CONFIDENCE_THRESHOLD, hnone, hok, hmk]
  split_ifs with h
  · simpa using h
  · simpa using h

theorem gateEnv_valid (rel : ℤ) (conf : ℚ) (h1 : 0 ≤ rel) (h2 : rel ≤ 5)
    (h3 : 0 ≤ conf) (h4 : conf ≤ 1) (rid : Nat) (title : String) :
    (classify_and_store (gateEnv rel conf) rid title emptyStore).gapTriggered = true ↔
      (3 ≤ rel ∧ 7/10 ≤ conf) :=
  classify_and_store_gate (gateEnv rel conf) (gateResult rel conf) rid title
    emptyStore rfl rfl ⟨h1, h2⟩ ⟨h3, h4⟩ (by simp [gateResult])

/-- C1: for a not-yet-classified document whose (schema-valid) classifier
result is given, `classify_and_store` triggers gap analysis iff
`relevance_score ≥ 3` and `confidence ≥ 0.7`; the boundary pair (3, 0.7)
triggers while (2, 0.99) and (5, 0.69) do not. -/
theorem c1_gap_analysis_gate (env : Env) (result : ClassificationResult)
    (rid : Nat) (title : String) (s : Store)
    (hnone : s.classifications rid = none)
    (hok : env.classify = .ok result)
    (hrel : 0 ≤ result.relevance_score ∧ result.relevance_score ≤ 5)
    (hconf : 0 ≤ result.confidence ∧ result.confidence ≤ 1)
    (hpil : ∀ p ∈ result.bsa_pillars, p ∈ VALID_BSA_PILLARS) :
    ((classify_and_store env rid title s).gapTriggered = true ↔
      (3 ≤ result.relevance_score ∧ 7/10 ≤ result.confidence)) ∧
    (classify_and_store (gateEnv 3 (7/10)) 0 "doc" emptyStore).gapTriggered = true ∧
    (classify_and_store (gateEnv 2 (99/100)) 0 "doc" emptyStore).gapTriggered = false ∧
    (classify_and_store (gateEnv 5 (69/100)) 0 "doc" emptyStore).gapTriggered = false := by
  refine ⟨classify_and_store_gate env result rid title s hnone hok hrel hconf hpil,
    ?_, ?_, ?_⟩
  · exact (gateEnv_valid 3 (7/10) (by norm_num) (by norm_num) (by norm_num)
      (by norm_num) 0 "doc").mpr (by norm_num)
  · rw [Bool.eq_false_iff]
    intro hT
    have := (gateEnv_valid 2 (99/100) (by norm_num) (by norm_num) (by norm_num)
      (by norm_num) 0 "doc").mp hT
    norm_num at this
  · rw [Bool.eq_false_iff]
    intro hT
    have := (gateEnv_valid 5 (69/100) (by norm_num) (by norm_num) (by norm_num)
      (by norm_num) 0 "doc").mp hT
    norm_num at this

/-- Witness for C1 at a concrete input: a fresh store, relevance 4,
confidence 0.8 — the gate fires. -/
theorem c1_witness :
    (classify_and_store (gateEnv 4 (8/10)) 7 "doc" emptyStore).gapTriggered = true := by
  have h := c1_gap_analysis_gate (gateEnv 4 (8/10)) (gateResult 4 (8/10)) 7 "doc"
    emptyStore rfl rfl ⟨by norm_num [gateResult], by norm_num [gateResult]⟩
    ⟨by norm_num [gateResult], by norm_num [gateResult]⟩ (by simp [gateResult])
  exact h.1.mpr ⟨by norm_num [gateResult], by norm_num [gateResult]⟩

/-! ## C2: classification idempotency -/

/-- C2: for an already-classified document `classify_and_store` returns the
"already done" value `False` without calling the classifier and without
writing; and after a first successful classification, a second call is a
no-op, so exactly one Classification is persisted. -/
theorem c2_classification_idempotent (env env₂ : Env) (rid : Nat)
    (title title₂ : String) (s : Store) :
    (∀ c, s.classifications rid = some c →
      (classify_and_store env rid title s).ret = .ok false ∧
      (classify_and_store env rid title s).store = s ∧
      (classify_and_store env rid title s).classifierCalls = 0) ∧
    (∀ result classification,
      s.classifications rid = none →
      env.classify = .ok result →
      mkClassificationCreate rid result = some classification →
      (classify_and_store env rid title s).store.classifications rid =
        some classification ∧
      (classify_and_store env₂ rid title₂ (classify_and_store env rid title s).store).ret =
        .ok false ∧
      (classify_and_store env₂ rid title₂ (classify_and_store env rid title s).store).store =
        (classify_and_store env rid title s).store ∧
      (classify_and_store env₂ rid title₂
        (classify_and_store env rid title s).store).classifierCalls = 0) := by
  constructor
  · intro c hc
    simp [classify_and_store, hc]
  · intro result classification hnone hok hmk
    have hstore : (classify_and_store env rid title s).store.classifications rid =
        some classification := by
      simp only [classify_and_store, hnone, hok, hmk]
      split_ifs with h
      · rw [triggerGapAnalysis_classifications]
        simp
      · simp
    refine ⟨hstore, ?_, ?_, ?_⟩ <;>
      · generalize hs' : (classify_and_store env rid title s).store = s' at hstore ⊢
        simp [classify_and_store, hstore]

/-- Witness for C2: a first call persists the classification for document 7,
the second call is a no-op returning False with zero classifier calls. -/
theorem c2_witness :
    (classify_and_store (gateEnv 1 (1/2)) 7 "doc" emptyStore).store.classifications 7 =
      some { regulation_id := 7, relevance_score := 1, confidence := 1/2,
             bsa_pillars := [], categories_labels := [],
             classification_reasoning := "r", model_used := "gpt-4o-mini" } ∧
    (classify_and_store (gateEnv 1 (1/2)) 7 "doc2"
      (classify_and_store (gateEnv 1 (1/2)) 7 "doc" emptyStore).store).ret = .ok false ∧
    (classify_and_store (gateEnv 1 (1/2)) 7 "doc2"
      (classify_and_store (gateEnv 1 (1/2)) 7 "doc" emptyStore).store).classifierCalls = 0 := by
  have h := (c2_classification_idempotent (gateEnv 1 (1/2)) (gateEnv 1 (1/2)) 7
    "doc" "doc2" emptyStore).2 (gateResult 1 (1/2))
    { regulation_id := 7, relevance_score := 1, confidence := 1/2,
      bsa_pillars := [], categories_labels := [],
      classification_reasoning := "r", model_used := "gpt-4o-mini" }
    rfl rfl (by
      unfold mkClassificationCreate
      rw [if_pos]
      · rfl
      · refine ⟨by norm_num [gateResult], by norm_num [gateResult],
          by norm_num [gateResult], by norm_num [gateResult], by simp [gateResult]⟩)
  exact ⟨h.1, h.2.1, h.2.2.2⟩

/-! ## C3: gap-analysis failure isolation -/

/-- Failure isolation of `_trigger_gap_analysis`, as a reusable lemma: on a
fresh document, an analyzer error or a persistence failure yields `False`
and an unchanged store. -/
theorem triggerGapAnalysis_failure (env : Env) (rid : Nat) (title : String)
    (s : Store)
    (hnone : s.gapAnalyses rid = none)
    (hfail : (∃ e, env.analyze = .error e) ∨ env.persistGapOk = false) :
    (triggerGapAnalysis env rid title s).1 = false ∧
    (triggerGapAnalysis env rid title s).2 = s := by
  rcases hfail with ⟨e, he⟩ | hp
  · simp [triggerGapAnalysis, hnone, he]
  · cases ha : env.analyze with
    | error e => simp [triggerGapAnalysis, hnone, ha]
    | ok result =>
      cases hm : mkGapAnalysisCreate rid result with
      | none => simp [triggerGapAnalysis, hnone, ha, hm]
      | some gc => simp [triggerGapAnalysis, hnone, ha, hm, hp]

/-- C3: when no gap analysis exists yet and either the Gap Analyzer call or
the persistence of its result raises, `_trigger_gap_analysis` catches the
exception (the model returns a plain boolean, never an exception), reports
`False`, and leaves the store — in particular every persisted Classification
and the absence of a GapAnalysis row — exactly as it was. -/
theorem c3_gap_failure_isolation (env : Env) (rid : Nat) (title : String)
    (s : Store)
    (hnone : s.gapAnalyses rid = none)
    (hfail : (∃ e, env.analyze = .error e) ∨ env.persistGapOk = false) :
    (triggerGapAnalysis env rid title s).1 = false ∧
    (triggerGapAnalysis env rid title s).2 = s :=
  triggerGapAnalysis_failure env rid title s hnone hfail

/-- Witness for C3: a concrete analyzer failure on a fresh store. -/
theorem c3_witness :
    (triggerGapAnalysis
      { classify := .error "unused", analyze := .error "APIConnectionError",
        persistGapOk := true, persistTasksOk := true, now := 0 }
      0 "doc" emptyStore).1 = false ∧
    (triggerGapAnalysis
      { classify := .error "unused", analyze := .error "APIConnectionError",
        persistGapOk := true, persistTasksOk := true, now := 0 }
      0 "doc" emptyStore).2 = emptyStore :=
  c3_gap_failure_isolation
    { classify := .error "unused", analyze := .error "APIConnectionError",
      persistGapOk := true, persistTasksOk := true, now := 0 }
    0 "doc" emptyStore rfl (Or.inl ⟨"APIConnectionError", rfl⟩)

/-! ## C4: return coding of the trigger boundaries -/

/-- Fixture: one persisted gap-analysis row. -/
def c4GapRow : GapAnalysisCreate :=
  { regulation_id := 0, affected_controls := [], gap_severity := "high",
    remediation_effort_hours := none, analysis_summary := "s",
    recommendations_reasoning := "r", model_used := "gpt-4o" }

/-- Fixture: store already holding a gap analysis for document 0. -/
def c4StoreWithGap : Store :=
  { emptyStore with gapAnalyses := fun r => if r = 0 then some c4GapRow else none }

/-- Fixture: one persisted task row. -/
def c4Task : TaskCreate :=
  { regulation_id := 0, gap_analysis_id := 0, control_id := "IC-01",
    title := "t", description := "d", assigned_team := "BSA Officer",
    priority := TaskPriority.high, status := TaskStatus.pending, due_date := 0 }

/-- Fixture: store already holding tasks for gap analysis 0. -/
def c4StoreWithTasks : Store :=
  { emptyStore with tasksByGap := fun g => if g = 0 then [c4Task] else [] }

/-- Fixture: a successful analyzer result. -/
def c4AnalyzeResult : GapAnalysisResult :=
  { reasoning := "r", affected_controls := [], overall_severity := "high",
    total_effort_hours := 0, summary := "s" }

/-- Fixture: environment whose analyzer succeeds. -/
def c4OkEnv : Env :=
  { classify := .error "unused", analyze := .ok c4AnalyzeResult,
    persistGapOk := true, persistTasksOk := true, now := 0 }

/-- Fixture: environment whose analyzer raises. -/
def c4FailAnalyzeEnv : Env := { c4OkEnv with analyze := .error "APIError" }

/-- Fixture: environment where `db.create_task` raises. -/
def c4FailTasksEnv : Env := { c4OkEnv with persistTasksOk := false }

/-- C4 counterexample: the idempotency short-circuit and the contained
failure return the *same* value `False`, for the gap-analysis trigger and for
the task-generation trigger alike, so a caller cannot distinguish "nothing to
do" from "something went wrong" by the returned value. -/
theorem c4_counterexample :
    (triggerGapAnalysis c4OkEnv 0 "doc" c4StoreWithGap).1 = false ∧
    (triggerGapAnalysis c4FailAnalyzeEnv 0 "doc" emptyStore).1 = false ∧
    (triggerGapAnalysis c4OkEnv 0 "doc" c4StoreWithGap).1 =
      (triggerGapAnalysis c4FailAnalyzeEnv 0 "doc" emptyStore).1 ∧
    (triggerTaskGeneration c4OkEnv 0 0 "high" [] "doc" c4StoreWithTasks).1 = false ∧
    (triggerTaskGeneration c4FailTasksEnv 0 0 "high" [] "doc" emptyStore).1 = false ∧
    (triggerTaskGeneration c4OkEnv 0 0 "high" [] "doc" c4StoreWithTasks).1 =
      (triggerTaskGeneration c4FailTasksEnv 0 0 "high" [] "doc" emptyStore).1 :=
  ⟨rfl, rfl, rfl, rfl, rfl, rfl⟩

/-- C4 amended: both triggers return `False` for the idempotency
short-circuit and for a contained failure alike, and `True` exactly when new
work completed — so the boolean return distinguishes "work done" from "no
work done", but not "nothing to do" from "something went wrong". -/
theorem c4_amended_return_coding (env : Env) (rid gid : Nat)
    (sev title : String) (acs : List ControlGapDict) (s : Store) :
    ((s.gapAnalyses rid).isSome → (triggerGapAnalysis env rid title s).1 = false) ∧
    (s.gapAnalyses rid = none →
      ((∃ e, env.analyze = .error e) ∨ env.persistGapOk = false) →
      (triggerGapAnalysis env rid title s).1 = false) ∧
    (s.gapAnalyses rid = none →
      (∃ result, env.analyze = .ok result ∧
        (mkGapAnalysisCreate rid result).isSome = true) →
      env.persistGapOk = true →
      (triggerGapAnalysis env rid title s).1 = true) ∧
    (s.tasksByGap gid ≠ [] →
      (triggerTaskGeneration env gid rid sev acs title s).1 = false) ∧
    (s.tasksByGap gid = [] → env.persistTasksOk = false →
      (triggerTaskGeneration env gid rid sev acs title s).1 = false) ∧
    (s.tasksByGap gid = [] → env.persistTasksOk = true →
      (triggerTaskGeneration env gid rid sev acs title s).1 = true) := by
  refine ⟨?_, ?_, ?_, ?_, ?_, ?_⟩
  · intro hsome
    cases hg : s.gapAnalyses rid with
    | none => rw [hg] at hsome; cases hsome
    | some g => simp [triggerGapAnalysis, hg]
  · intro hnone hfail
    exact (triggerGapAnalysis_failure env rid title s hnone hfail).1
  · intro hnone hok hp
    obtain ⟨result, hok, hsm⟩ := hok
    cases hm : mkGapAnalysisCreate rid result with
    | none => rw [hm] at hsm; cases hsm
    | some gc => simp [triggerGapAnalysis, hnone, hok, hm, hp]
  · intro hne
    simp [triggerTaskGeneration, hne]
  · intro hempty hp
    simp [triggerTaskGeneration, hempty, hp]
  · intro hempty hp
    simp [triggerTaskGeneration, hempty, hp]

/-- Witness for the amended C4, applying it at concrete skip, failure and
success invocations of both triggers. -/
theorem c4_witness :
    (triggerGapAnalysis c4FailAnalyzeEnv 0 "doc" c4StoreWithGap).1 = false ∧
    (triggerGapAnalysis c4FailAnalyzeEnv 1 "doc" c4StoreWithGap).1 = false ∧
    (triggerGapAnalysis c4OkEnv 1 "doc" c4StoreWithGap).1 = true ∧
    (triggerTaskGeneration c4OkEnv 0 0 "high" [] "doc" c4StoreWithTasks).1 = false ∧
    (triggerTaskGeneration c4FailTasksEnv 1 0 "high" [] "doc" c4StoreWithTasks).1 = false ∧
    (triggerTaskGeneration c4OkEnv 1 0 "high" [] "doc" c4StoreWithTasks).1 = true := by
  refine ⟨?_, ?_, ?_, ?_, ?_, ?_⟩
  · exact (c4_amended_return_coding c4FailAnalyzeEnv 0 0 "high" "doc" [] c4StoreWithGap).1
      (by decide)
  · exact (c4_amended_return_coding c4FailAnalyzeEnv 1 0 "high" "doc" [] c4StoreWithGap).2.1
      (by decide) (Or.inl ⟨"APIError", rfl⟩)
  · exact (c4_amended_return_coding c4OkEnv 1 0 "high" "doc" [] c4StoreWithGap).2.2.1
      (by decide) ⟨c4AnalyzeResult, rfl, by decide⟩ rfl
  · exact (c4_amended_return_coding c4OkEnv 0 0 "high" "doc" [] c4StoreWithTasks).2.2.2.1
      (by decide)
  · exact (c4_amended_return_coding c4FailTasksEnv 0 1 "high" "doc" [] c4StoreWithTasks).2.2.2.2.1
      (by decide) rfl
  · exact (c4_amended_return_coding c4OkEnv 0 1 "high" "doc" [] c4StoreWithTasks).2.2.2.2.2
      (by decide) rfl

/-! ## C10: concurrent batch classification -/

/-- The batch record produced for one document: its classifier result on
success, the caught exception message on failure.  Independent of the slot
index. -/
def mkBatchResult (oracle : DocumentInput → Except String ClassificationResult)
    (doc : DocumentInput) : BatchResult :=
  match oracle doc with
  | .ok result => ⟨doc.id, some result, none⟩
  | .error e => ⟨doc.id, none, some e⟩

theorem classify_one_snd (oracle : DocumentInput → Except String ClassificationResult)
    (idx : ℕ) (doc : DocumentInput) :
    (classify_one oracle idx doc).2 = mkBatchResult oracle doc := by
  unfold classify_one mkBatchResult
  cases oracle doc <;> rfl

theorem classify_documents_batch_run_eq
    (oracle : DocumentInput → Except String ClassificationResult)
    (documents : List DocumentInput) :
    classify_documents_batch_run oracle documents =
      documents.map (mkBatchResult oracle) := by
  unfold classify_documents_batch_run
  simp only [classify_one_snd]
  rw [show (fun id : ℕ × DocumentInput => mkBatchResult oracle id.2) =
      (mkBatchResult oracle) ∘ Prod.snd from rfl]
  rw [← List.map_map, List.enum_map_snd]

theorem batchStep_length (oracle : DocumentInput → Except String ClassificationResult)
    (documents : List DocumentInput) (acc : List (Option BatchResult)) (i : ℕ) :
    (batchStep oracle documents acc i).length = acc.length := by
  unfold batchStep
  cases documents[i]? <;> simp

theorem batch_foldl_length (oracle : DocumentInput → Except String ClassificationResult)
    (documents : List DocumentInput) (order : List ℕ)
    (acc : List (Option BatchResult)) :
    (order.foldl (batchStep oracle documents) acc).length = acc.length := by
  induction order generalizing acc with
  | nil => rfl
  | cons j rest ih =>
    rw [List.foldl_cons, ih, batchStep_length]

theorem batch_foldl_not_mem (oracle : DocumentInput → Except String ClassificationResult)
    (documents : List DocumentInput) (order : List ℕ)
    (acc : List (Option BatchResult)) (i : ℕ) (hi : i ∉ order) :
    (order.foldl (batchStep oracle documents) acc)[i]? = acc[i]? := by
  induction order generalizing acc with
  | nil => rfl
  | cons j rest ih =>
    have hij : i ≠ j := fun h => hi (h ▸ List.mem_cons_self j rest)
    have hirest : i ∉ rest := fun h => hi (List.mem_cons_of_mem j h)
    rw [List.foldl_cons, ih _ hirest]
    unfold batchStep
    cases documents[j]? with
    | none => rfl
    | some doc => simp [List.getElem?_set_ne (Ne.symm hij)]

theorem batch_foldl_mem (oracle : DocumentInput → Except String ClassificationResult)
    (documents : List DocumentInput) (order : List ℕ)
    (acc : List (Option BatchResult)) (hlen : acc.length = documents.length)
    (i : ℕ) (hi : i < documents.length) (hmem : i ∈ order) :
    (order.foldl (batchStep oracle documents) acc)[i]? =
      some (some (mkBatchResult oracle (documents.get ⟨i, hi⟩))) := by
  induction order generalizing acc with
  | nil => cases hmem
  | cons j rest ih =>
    rw [List.foldl_cons]
    by_cases hr : i ∈ rest
    · exact ih _ (by rw [batchStep_length, hlen]) hr
    · have hij : i = j := by
        rcases List.mem_cons.mp hmem with h | h
        · exact h
        · exact absurd h hr
      subst hij
      rw [batch_foldl_not_mem oracle documents rest _ i hr]
      have hdoc : documents[i]? = some (documents.get ⟨i, hi⟩) :=
        List.getElem?_eq_getElem hi
      unfold batchStep
      simp only [hdoc, classify_one_snd]
      exact List.getElem?_set_self (by rw [hlen]; exact hi)

/-- C10: for any permutation of completion order, the batch returns exactly
N slots, slot i holding the result record of document i (with a worker's
exception recorded as that item's error), independent of the completion
order of the other workers. -/
theorem c10_batch_input_order
    (oracle : DocumentInput → Except String ClassificationResult)
    (documents : List DocumentInput) (completionOrder : List ℕ)
    (hperm : completionOrder.Perm (List.range documents.length)) :
    (classify_documents_batch oracle documents completionOrder).length =
      documents.length ∧
    (∀ i (hi : i < documents.length),
      (classify_documents_batch oracle documents completionOrder)[i]? =
        some (some (mkBatchResult oracle (documents.get ⟨i, hi⟩)))) ∧
    (∀ i (hi : i < documents.length) (e : String),
      oracle (documents.get ⟨i, hi⟩) = .error e →
      (classify_documents_batch oracle documents completionOrder)[i]? =
        some (some ⟨(documents.get ⟨i, hi⟩).id, none, some e⟩)) := by
  have hlen : (List.replicate documents.length
      (none : Option BatchResult)).length = documents.length :=
    List.length_replicate _ _
  have hmain : ∀ i (hi : i < documents.length),
      (classify_documents_batch oracle documents completionOrder)[i]? =
        some (some (mkBatchResult oracle (documents.get ⟨i, hi⟩))) := by
    intro i hi
    have hmem : i ∈ completionOrder := by
      rw [hperm.mem_iff, List.mem_range]
      exact hi
    exact batch_foldl_mem oracle documents completionOrder _ hlen i hi hmem
  refine ⟨?_, hmain, ?_⟩
  · rw [classify_documents_batch, batch_foldl_length, hlen]
  · intro i hi e herr
    rw [hmain i hi]
    unfold mkBatchResult
    rw [herr]

/-- Witness for C10: two documents completing in reverse order still land in
input order, with the second document's failure recorded in its own slot. -/
def c10DocA : DocumentInput :=
  { id := "a", title := "A", source := "sec", published_date := "2024-01-01",
    content := "ca" }

def c10DocB : DocumentInput :=
  { id := "b", title := "B", source := "sec", published_date := "2024-01-02",
    content := "cb" }

def c10Oracle : DocumentInput → Except String ClassificationResult :=
  fun doc => if doc.id = "a" then .ok (gateResult 4 1) else .error "timeout"

theorem c10_witness :
    (classify_documents_batch c10Oracle [c10DocA, c10DocB] [1, 0]).length = 2 ∧
    (classify_documents_batch c10Oracle [c10DocA, c10DocB] [1, 0])[0]? =
      some (some (mkBatchResult c10Oracle c10DocA)) ∧
    (classify_documents_batch c10Oracle [c10DocA, c10DocB] [1, 0])[1]? =
      some (some ⟨"b", none, some "timeout"⟩) := by
  have h := c10_batch_input_order c10Oracle [c10DocA, c10DocB] [1, 0] (by decide)
  refine ⟨h.1, h.2.1 0 (by norm_num), ?_⟩
  have := h.2.2 1 (by norm_num) "timeout" (by rfl)
  simpa using this

/-! ## C6: micro-averaged multi-label scoring -/

theorem mlTotals_foldl (l : List (Finset String × Finset String)) (a b c : ℕ) :
    l.foldl
      (fun (acc : ℕ × ℕ × ℕ) pe =>
        (acc.1 + (pe.1 ∩ pe.2).card, acc.2.1 + (pe.1 \ pe.2).card,
         acc.2.2 + (pe.2 \ pe.1).card))
      (a, b, c) =
    (a + (l.map (fun pe => (pe.1 ∩ pe.2).card)).sum,
     b + (l.map (fun pe => (pe.1 \ pe.2).card)).sum,
     c + (l.map (fun pe => (pe.2 \ pe.1).card)).sum) := by
  induction l generalizing a b c with
  | nil => simp
  | cons pe rest ih =>
    rw [List.foldl_cons, ih]
    simp only [List.map_cons, List.sum_cons, Prod.mk.injEq]
    omega

/-- C6: over equal-length prediction/expectation lists, `score_multilabel`
micro-averages — TP/FP/FN are the summed per-case set intersection and
difference sizes, precision/recall are the guarded quotients, F1 the guarded
harmonic mean — and never raises a division error; one case with predicted
set `aml` against expected `aml, sanctions` yields TP=1, FP=0, FN=1,
precision 1, recall 1/2, F1 = 2/3. -/
theorem c6_multilabel_micro (predictions expected : List (Finset String))
    (h : predictions.length = expected.length) :
    (∃ s, score_multilabel predictions expected = .ok s ∧
      s.true_positives =
        ((predictions.zip expected).map (fun pe => (pe.1 ∩ pe.2).card)).sum ∧
      s.false_positives =
        ((predictions.zip expected).map (fun pe => (pe.1 \ pe.2).card)).sum ∧
      s.false_negatives =
        ((predictions.zip expected).map (fun pe => (pe.2 \ pe.1).card)).sum ∧
      s.precision = (if 0 < s.true_positives + s.false_positives then
        (s.true_positives : ℚ) / (s.true_positives + s.false_positives) else 0) ∧
      s.«recall» = (if 0 < s.true_positives + s.false_negatives then
        (s.true_positives : ℚ) / (s.true_positives + s.false_negatives) else 0) ∧
      s.f1 = (if 0 < s.precision + s.«recall» then
        2 * s.precision * s.«recall» / (s.precision + s.«recall») else 0)) ∧
    score_multilabel [({"aml"} : Finset String)]
        [({"aml", "sanctions"} : Finset String)] =
      .ok ⟨1, 1/2, 2/3, 1, 0, 1⟩ := by
  constructor
  · unfold score_multilabel
    rw [if_neg (by rw [h]; exact fun hne => hne rfl)]
    refine ⟨_, rfl, ?_, ?_, ?_, rfl, rfl, rfl⟩
    · rw [mlTotals_foldl]; simp
    · rw [mlTotals_foldl]; simp
    · rw [mlTotals_foldl]; simp
  · have htot :
        ([({"aml"} : Finset String)].zip [({"aml", "sanctions"} : Finset String)]).foldl
          (fun (acc : ℕ × ℕ × ℕ) pe =>
            (acc.1 + (pe.1 ∩ pe.2).card, acc.2.1 + (pe.1 \ pe.2).card,
             acc.2.2 + (pe.2 \ pe.1).card))
          (0, 0, 0) = (1, 0, 1) := by decide
    unfold score_multilabel
    rw [if_neg (fun hne => hne rfl)]
    simp only [htot]
    norm_num [MultiLabelScores.mk.injEq]

/-- Witness for C6: the micro-averaging theorem applied at the empty-set
benchmark — the empty denominators produce 0, not an error. -/
theorem c6_witness :
    ∃ s, score_multilabel [(∅ : Finset String)] [(∅ : Finset String)] = .ok s ∧
      s.precision = 0 ∧ s.«recall» = 0 ∧ s.f1 = 0 := by
  obtain ⟨⟨s, hs, htp, hfp, hfn, hprec, hrec, hf1⟩, -⟩ :=
    c6_multilabel_micro [(∅ : Finset String)] [(∅ : Finset String)] rfl
  have htp0 : s.true_positives = 0 := by simpa using htp
  have hfp0 : s.false_positives = 0 := by simpa using hfp
  have hfn0 : s.false_negatives = 0 := by simpa using hfn
  have hp : s.precision = 0 := by rw [hprec, htp0, hfp0]; norm_num
  have hr : s.«recall» = 0 := by rw [hrec, htp0, hfn0]; norm_num
  refine ⟨s, hs, hp, hr, ?_⟩
  rw [hf1, hp, hr]
  norm_num

/-! ## C7: Brier score and binned calibration error -/

/-- Spec-side bin membership: confidence lies in the b-th of the ten
equal-width bins [0,0.1), ..., [0.8,0.9), [0.9,1.0]. -/
def inCalibrationBin (b : ℕ) (conf : ℚ) : Bool :=
  decide ((b : ℚ)/10 ≤ conf) &&
    (if b = 9 then decide (conf ≤ 1) else decide (conf < (b + 1)/10))

/-- The code's `min(int(conf * 10), 9)` sends a confidence in [0,1] to
exactly the interval bin of the specification. -/
theorem binIdx_eq_iff (conf : ℚ) (h0 : 0 ≤ conf) (h1 : conf ≤ 1) (b : ℕ)
    (hb : b < 10) :
    binIdx conf = b ↔ inCalibrationBin b conf = true := by
  have h10 : (0:ℚ) < 10 := by norm_num
  have hm0 : (0:ℤ) ≤ ⌊conf * 10⌋ := Int.floor_nonneg.mpr (by positivity)
  by_cases h9 : b = 9
  · subst h9
    have lhs_iff : binIdx conf = 9 ↔ (9:ℚ)/10 ≤ conf := by
      unfold binIdx
      constructor
      · intro h
        have h9m : (9:ℤ) ≤ ⌊conf * 10⌋ := by omega
        have h9q : ((9:ℤ):ℚ) ≤ conf * 10 := Int.le_floor.mp h9m
        rw [div_le_iff₀ h10]
        push_cast at h9q
        linarith
      · intro h
        rw [div_le_iff₀ h10] at h
        have h9m : (9:ℤ) ≤ ⌊conf * 10⌋ := Int.le_floor.mpr (by push_cast; linarith)
        omega
    rw [lhs_iff]
    have hrhs : inCalibrationBin 9 conf = true ↔ ((9:ℚ)/10 ≤ conf ∧ conf ≤ 1) := by
      simp [inCalibrationBin]
    rw [hrhs]
    constructor
    · intro h
      exact ⟨h, h1⟩
    · rintro ⟨h, -⟩
      exact h
  · have hb9 : b < 9 := by omega
    have lhs_iff : binIdx conf = b ↔ ⌊conf * 10⌋ = (b:ℤ) := by
      unfold binIdx
      constructor
      · intro h; omega
      · intro h; omega
    rw [lhs_iff, Int.floor_eq_iff]
    simp only [inCalibrationBin, if_neg h9, Bool.and_eq_true, decide_eq_true_eq]
    constructor
    · rintro ⟨ha, hb'⟩
      push_cast at ha hb'
      constructor
      · rw [div_le_iff₀ h10]; linarith
      · rw [lt_div_iff₀ h10]; linarith
    · rintro ⟨ha, hb'⟩
      rw [div_le_iff₀ h10] at ha
      rw [lt_div_iff₀ h10] at hb'
      constructor
      · push_cast; linarith
      · push_cast; linarith

theorem score_relevance_ok (p e : List ℤ) (h : p.length = e.length) :
    ∃ r, score_relevance p e = .ok r := by
  unfold score_relevance
  rw [if_neg (by omega)]
  dsimp only
  split
  · exact ⟨_, rfl⟩
  · exact ⟨_, rfl⟩

theorem score_multilabel_ok (p e : List (Finset String))
    (h : p.length = e.length) :
    ∃ r, score_multilabel p e = .ok r := by
  unfold score_multilabel
  rw [if_neg (by omega)]
  exact ⟨_, rfl⟩

/-- The calibration field of a successful `evaluate_classification` run is
`score_calibration` applied to the per-prediction confidences, the
tolerance-based correctness indicators, and the human-review flags. -/
theorem evaluate_classification_calibration (tcs : List TestCase)
    (preds : List PredictedClassification) (tol : ℤ)
    (hlen : tcs.length = preds.length) :
    (evaluate_classification tcs preds tol).map (fun r => r.calibration) =
      .ok (score_calibration (preds.map fun p => p.confidence)
        ((preds.zip tcs).map fun pt =>
          decide (|pt.1.relevance_score - pt.2.expected.relevance_score| ≤ tol))
        (preds.map fun p => p.requires_human_review)
        (tcs.map fun tc => tc.expected.requires_human_review)) := by
  obtain ⟨rel, hrel⟩ := score_relevance_ok (preds.map (fun p => p.relevance_score))
    (tcs.map (fun tc => tc.expected.relevance_score)) (by simp [hlen])
  obtain ⟨pil, hpil⟩ := score_multilabel_ok
    (preds.map fun p => p.bsa_pillars.toFinset)
    (tcs.map fun tc => tc.expected.bsa_pillars.toFinset) (by simp [hlen])
  obtain ⟨cat, hcat⟩ := score_multilabel_ok
    (preds.map fun p => p.categories.toFinset)
    (tcs.map fun tc => tc.expected.categories.toFinset) (by simp [hlen])
  unfold evaluate_classification
  rw [if_neg (by omega)]
  simp only [hrel, hpil, hcat]
  rfl

/-- C7: for a nonempty evaluated benchmark, Brier score is the mean of
(confidence − correctness)² where a case is correct iff
|predicted − expected relevance| ≤ tolerance, and calibration error buckets
cases into the ten equal-width confidence bins [0,0.1) … [0.9,1.0], drops
empty bins entirely, weights each non-empty bin's |average confidence −
observed accuracy| by its case count, sums and divides by the number of
cases; the tolerance parameter defaults to 1. -/
theorem c7_calibration_metrics (test_cases : List TestCase)
    (predictions : List PredictedClassification) (tol : ℤ)
    (report : EvaluationReport)
    (hlen : test_cases.length = predictions.length)
    (hne : predictions ≠ [])
    (hconf : ∀ p ∈ predictions, 0 ≤ p.confidence ∧ p.confidence ≤ 1)
    (hrep : evaluate_classification test_cases predictions tol = .ok report) :
    (∀ (tcs : List TestCase) (preds : List PredictedClassification),
      evaluate_classification tcs preds = evaluate_classification tcs preds 1) ∧
    report.calibration.brier_score =
      ((predictions.zip test_cases).map (fun pt =>
        (pt.1.confidence -
          (if |pt.1.relevance_score - pt.2.expected.relevance_score| ≤ tol
           then 1 else 0)) ^ 2)).sum
        / (predictions.length : ℚ) ∧
    report.calibration.calibration_error =
      ((((List.range 10).map (fun b =>
          (predictions.zip test_cases).filter
            (fun pt => inCalibrationBin b pt.1.confidence))).filter
          (fun bin => bin ≠ [])).map (fun bin =>
            |(bin.map (fun pt => pt.1.confidence)).sum / (bin.length : ℚ) -
              (bin.countP (fun pt =>
                decide (|pt.1.relevance_score - pt.2.expected.relevance_score| ≤ tol)) : ℚ)
                / (bin.length : ℚ)| * (bin.length : ℚ))).sum
        / (predictions.length : ℚ) := by
  classical
  refine ⟨fun _ _ => rfl, ?_⟩
  have hcal0 := evaluate_classification_calibration test_cases predictions tol hlen
  rw [hrep] at hcal0
  have hcal : report.calibration = score_calibration
      (predictions.map fun p => p.confidence)
      ((predictions.zip test_cases).map fun pt =>
        decide (|pt.1.relevance_score - pt.2.expected.relevance_score| ≤ tol))
      (predictions.map fun p => p.requires_human_review)
      (test_cases.map fun tc => tc.expected.requires_human_review) := by
    simpa [Except.map] using hcal0
  have hLfst : (predictions.zip test_cases).map Prod.fst = predictions :=
    List.map_fst_zip predictions test_cases (by omega)
  have hconfs : (predictions.map fun p => p.confidence) =
      (predictions.zip test_cases).map (fun pt => pt.1.confidence) := by
    conv_lhs => rw [← hLfst, List.map_map]
    rfl
  have hLlen : (predictions.zip test_cases).length = predictions.length := by
    rw [List.length_zip]; omega
  have hfilter : ∀ b, b < 10 →
      (predictions.zip test_cases).filter
        (fun pt => binIdx pt.1.confidence == b) =
      (predictions.zip test_cases).filter
        (fun pt => inCalibrationBin b pt.1.confidence) := by
    intro b hb
    apply List.filter_congr
    intro pt hpt
    have hmem : pt.1 ∈ predictions := by
      have hp2 : (pt.1, pt.2) ∈ predictions.zip test_cases := by
        rwa [Prod.mk.eta]
      exact (List.of_mem_zip hp2).1
    obtain ⟨hc0, hc1⟩ := hconf pt.1 hmem
    rw [Bool.eq_iff_iff]
    simp only [beq_iff_eq]
    exact binIdx_eq_iff pt.1.confidence hc0 hc1 b hb
  rw [hcal]
  simp only [score_calibration]
  rw [if_neg (by simp [List.length_eq_zero, hne])]
  constructor
  · dsimp only
    rw [hconfs, List.zip_map', List.map_map, List.length_map, hLlen]
    congr 1
    apply congrArg List.sum
    apply List.map_eq_map_iff.mpr
    intro pt hpt
    simp only [Function.comp_apply, decide_eq_true_eq]
  · dsimp only
    rw [hconfs, List.zip_map', List.length_map, hLlen]
    have hbins : (List.range 10).map (fun b =>
        ((predictions.zip test_cases).map (fun a =>
          (a.1.confidence,
           decide (|a.1.relevance_score - a.2.expected.relevance_score| ≤ tol)))).filter
          (fun p => binIdx p.1 == b)) =
      ((List.range 10).map (fun b =>
        (predictions.zip test_cases).filter
          (fun pt => inCalibrationBin b pt.1.confidence))).map
        (List.map (fun a =>
          (a.1.confidence,
           decide (|a.1.relevance_score - a.2.expected.relevance_score| ≤ tol)))) := by
      rw [List.map_map]
      apply List.map_eq_map_iff.mpr
      intro b hb
      rw [List.filter_map]
      show _ = ((predictions.zip test_cases).filter
        (fun pt => inCalibrationBin b pt.1.confidence)).map _
      rw [← hfilter b (List.mem_range.mp hb)]
      rfl
    rw [hbins, List.filter_map, List.map_map]
    have hq : ((List.range 10).map (fun b =>
        (predictions.zip test_cases).filter
          (fun pt => inCalibrationBin b pt.1.confidence))).filter
        ((fun bin_data => decide (bin_data ≠ [])) ∘
          (List.map (fun a =>
            (a.1.confidence,
             decide (|a.1.relevance_score - a.2.expected.relevance_score| ≤ tol))))) =
      ((List.range 10).map (fun b =>
        (predictions.zip test_cases).filter
          (fun pt => inCalibrationBin b pt.1.confidence))).filter
        (fun bin => decide (bin ≠ [])) := by
      apply List.filter_congr
      intro bd hbd
      simp [List.map_eq_nil_iff]
    rw [hq]
    have hmaps : (((List.range 10).map (fun b =>
        (predictions.zip test_cases).filter
          (fun pt => inCalibrationBin b pt.1.confidence))).filter
        (fun bin => decide (bin ≠ []))).map
        ((fun bin_data =>
          |(List.map Prod.fst bin_data).sum / (bin_data.length : ℚ) -
            (List.countP Prod.snd bin_data : ℚ) / (bin_data.length : ℚ)| *
            (bin_data.length : ℚ)) ∘
          (List.map (fun a =>
            (a.1.confidence,
             decide (|a.1.relevance_score - a.2.expected.relevance_score| ≤ tol))))) =
      (((List.range 10).map (fun b =>
        (predictions.zip test_cases).filter
          (fun pt => inCalibrationBin b pt.1.confidence))).filter
        (fun bin => decide (bin ≠ []))).map
        (fun bin =>
          |(bin.map (fun pt => pt.1.confidence)).sum / (bin.length : ℚ) -
            (bin.countP (fun pt =>
              decide (|pt.1.relevance_score - pt.2.expected.relevance_score| ≤ tol)) : ℚ)
              / (bin.length : ℚ)| * (bin.length : ℚ)) := by
      apply List.map_eq_map_iff.mpr
      intro bd hbd
      simp only [Function.comp_apply, List.map_map, List.countP_map, List.length_map]
      rfl
    rw [hmaps]
    split_ifs with hguard
    · rfl
    · rw [not_not] at hguard
      rw [hguard]
      simp


/-- Fixtures for the C7 witness: a one-case benchmark. -/
def c7TestCase : TestCase :=
  { document_id := "d", title := "T",
    expected := { relevance_score := 3, confidence := 1/2, bsa_pillars := [],
                  categories := [], requires_human_review := false },
    rationale := "r" }

def c7Pred : PredictedClassification :=
  { relevance_score := 4, confidence := 9/10, bsa_pillars := [],
    categories := [], requires_human_review := false }

/-- The report produced on the one-case benchmark. -/
def c7Report : EvaluationReport :=
  ((evaluate_classification [c7TestCase] [c7Pred] 1).toOption).getD
    ⟨⟨0, 0, 0, 0⟩, ⟨0, 0, 0, 0, 0, 0⟩, ⟨0, 0, 0, 0, 0, 0⟩, ⟨0, 0, 0⟩, 0, []⟩

/-- Witness for C7: the calibration theorem applied to the concrete one-case
benchmark, all hypotheses discharged. -/
theorem c7_witness :
    c7Report.calibration.brier_score =
      (([c7Pred].zip [c7TestCase]).map (fun pt =>
        (pt.1.confidence -
          (if |pt.1.relevance_score - pt.2.expected.relevance_score| ≤ (1:ℤ)
           then 1 else 0)) ^ 2)).sum
        / (([c7Pred] : List PredictedClassification).length : ℚ) ∧
    c7Report.calibration.calibration_error =
      ((((List.range 10).map (fun b =>
          ([c7Pred].zip [c7TestCase]).filter
            (fun pt => inCalibrationBin b pt.1.confidence))).filter
          (fun bin => bin ≠ [])).map (fun bin =>
            |(bin.map (fun pt => pt.1.confidence)).sum / (bin.length : ℚ) -
              (bin.countP (fun pt =>
                decide (|pt.1.relevance_score - pt.2.expected.relevance_score| ≤ (1:ℤ))) : ℚ)
                / (bin.length : ℚ)| * (bin.length : ℚ))).sum
        / (([c7Pred] : List PredictedClassification).length : ℚ) := by
  have hex : ∃ r, evaluate_classification [c7TestCase] [c7Pred] 1 = .ok r := by
    have h := evaluate_classification_calibration [c7TestCase] [c7Pred] 1 rfl
    cases he : evaluate_classification [c7TestCase] [c7Pred] 1 with
    | error e => rw [he] at h; simp [Except.map] at h
    | ok r => exact ⟨r, rfl⟩
  obtain ⟨r, hr⟩ := hex
  have hrep : evaluate_classification [c7TestCase] [c7Pred] 1 = .ok c7Report := by
    rw [hr]
    unfold c7Report
    rw [hr]
    rfl
  have h := c7_calibration_metrics [c7TestCase] [c7Pred] 1 c7Report rfl
    (by simp)
    (by
      intro p hp
      simp only [List.mem_singleton] at hp
      subst hp
      constructor <;> norm_num [c7Pred])
    hrep
  exact ⟨h.2.1, h.2.2⟩

/-! ## C5: evaluation skip/raise behavior -/

/-- A benchmark case that cannot contribute to the report: its document does
not resolve, or its classification call fails. -/
def caseUnevaluable (oracle : DocumentInput → Except String ClassificationResult)
    (resolve : String → Option Regulation) (tc : TestCase) : Bool :=
  match resolve tc.document_id with
  | none => true
  | some reg => !(oracle (mkDocumentInput tc reg)).isOk

theorem resolvePhase_skipped (resolve : String → Option Regulation)
    (tcs : List TestCase) :
    (resolvePhase resolve tcs).skipped =
      (tcs.filter (fun tc => (resolve tc.document_id).isNone)).map
        (fun tc => ⟨tc.document_id, "not_in_db"⟩) := by
  induction tcs with
  | nil => rfl
  | cons tc rest ih =>
    cases hr : resolve tc.document_id with
    | none => simp [resolvePhase, hr, ih]
    | some reg => simp [resolvePhase, hr, ih]

theorem resolvePhase_documents (resolve : String → Option Regulation)
    (tcs : List TestCase) :
    (resolvePhase resolve tcs).documents =
      tcs.filterMap (fun tc => (resolve tc.document_id).map (mkDocumentInput tc)) := by
  induction tcs with
  | nil => rfl
  | cons tc rest ih =>
    cases hr : resolve tc.document_id with
    | none => simp [resolvePhase, hr, ih]
    | some reg => simp [resolvePhase, hr, ih]

theorem resolvePhase_tcmap_isSome (resolve : String → Option Regulation)
    (tcs : List TestCase) :
    ∀ doc ∈ (resolvePhase resolve tcs).documents,
      ((resolvePhase resolve tcs).tcmap doc.id).isSome = true := by
  induction tcs with
  | nil => intro doc hd; cases hd
  | cons tc rest ih =>
    intro doc hd
    cases hr : resolve tc.document_id with
    | none =>
      simp only [resolvePhase, hr] at hd ⊢
      exact ih doc hd
    | some reg =>
      simp only [resolvePhase, hr, List.mem_cons] at hd ⊢
      rcases hd with hd | hd
      · subst hd
        cases hm : (resolvePhase resolve rest).tcmap (mkDocumentInput tc reg).id with
        | some v => simp [hm]
        | none => simp [hm, mkDocumentInput]
      · have := ih doc hd
        cases hm : (resolvePhase resolve rest).tcmap doc.id with
        | some v => simp [hm]
        | none => rw [hm] at this; cases this

theorem collectResults_map_ok
    (oracle : DocumentInput → Except String ClassificationResult)
    (tcmap : String → Option TestCase) (docs : List DocumentInput)
    (hmap : ∀ doc ∈ docs, (tcmap doc.id).isSome = true) :
    ∃ sk ps, collectResults tcmap (docs.map (mkBatchResult oracle)) = .ok (sk, ps) ∧
      sk = docs.filterMap (fun doc =>
        match oracle doc with
        | .error e => some ⟨doc.id, e⟩
        | .ok _ => none) ∧
      (ps = [] ↔ ∀ doc ∈ docs, (oracle doc).isOk = false) := by
  induction docs with
  | nil => exact ⟨[], [], rfl, rfl, by simp⟩
  | cons doc rest ih =>
    obtain ⟨sk, ps, hcol, hsk, hps⟩ :=
      ih (fun d hd => hmap d (List.mem_cons_of_mem _ hd))
    cases ho : oracle doc with
    | error e =>
      refine ⟨⟨doc.id, e⟩ :: sk, ps, ?_, ?_, ?_⟩
      · simp only [List.map_cons, mkBatchResult, ho, collectResults]
        rw [hcol]
        rfl
      · simp [ho, hsk]
      · rw [hps]
        constructor
        · intro h
          intro d hd
          rcases List.mem_cons.mp hd with h' | h'
          · subst h'; rw [ho]; rfl
          · exact h d h'
        · intro h d hd
          exact h d (List.mem_cons_of_mem _ hd)
    | ok r =>
      have hm := hmap doc (List.mem_cons_self _ _)
      cases htc : tcmap doc.id with
      | none => rw [htc] at hm; cases hm
      | some tc =>
        refine ⟨sk, (mkPredicted r, tc) :: ps, ?_, ?_, ?_⟩
        · simp only [List.map_cons, mkBatchResult, ho, collectResults, htc]
          rw [hcol]
          rfl
        · simp [ho, hsk]
        · constructor
          · intro h; cases h
          · intro h
            have := h doc (List.mem_cons_self _ _)
            rw [ho] at this
            cases this

theorem evaluate_classification_ok (tcs : List TestCase)
    (preds : List PredictedClassification) (tol : ℤ)
    (hlen : tcs.length = preds.length) :
    ∃ report, evaluate_classification tcs preds tol = .ok report := by
  have h := evaluate_classification_calibration tcs preds tol hlen
  cases he : evaluate_classification tcs preds tol with
  | error e => rw [he] at h; simp [Except.map] at h
  | ok r => exact ⟨r, rfl⟩

/-- The value of `run_evaluation` once the collect loop's outcome is known:
raise iff no case survived, otherwise the report paired with the combined
skip list. -/
theorem run_evaluation_eq
    (oracle : DocumentInput → Except String ClassificationResult)
    (resolve : String → Option Regulation) (tcs : List TestCase)
    {sk : List SkipRec} {ps : List (PredictedClassification × TestCase)}
    (hcol : collectResults (resolvePhase resolve tcs).tcmap
      ((resolvePhase resolve tcs).documents.map (mkBatchResult oracle)) =
        .ok (sk, ps)) :
    run_evaluation oracle resolve tcs =
      (if (ps.map Prod.snd) = []
       then .error "No test cases could be evaluated - check DB contents"
       else (evaluate_classification (ps.map Prod.snd) (ps.map Prod.fst) 1).bind
         (fun report => .ok (report, (resolvePhase resolve tcs).skipped ++ sk))) := by
  dsimp only [run_evaluation]
  rw [classify_documents_batch_run_eq, hcol]
  rfl

theorem run_evaluation_error_iff
    (oracle : DocumentInput → Except String ClassificationResult)
    (resolve : String → Option Regulation) (tcs : List TestCase) :
    (∃ e, run_evaluation oracle resolve tcs = .error e) ↔
      ∀ tc ∈ tcs, caseUnevaluable oracle resolve tc = true := by
  obtain ⟨sk, ps, hcol, hsk, hps⟩ := collectResults_map_ok oracle
    (resolvePhase resolve tcs).tcmap (resolvePhase resolve tcs).documents
    (resolvePhase_tcmap_isSome resolve tcs)
  have hdocs : (∀ doc ∈ (resolvePhase resolve tcs).documents,
      (oracle doc).isOk = false) ↔
      (∀ tc ∈ tcs, caseUnevaluable oracle resolve tc = true) := by
    rw [resolvePhase_documents]
    constructor
    · intro h tc htc
      unfold caseUnevaluable
      cases hr : resolve tc.document_id with
      | none => rfl
      | some reg =>
        have hm : mkDocumentInput tc reg ∈ tcs.filterMap
            (fun tc => (resolve tc.document_id).map (mkDocumentInput tc)) := by
          rw [List.mem_filterMap]
          exact ⟨tc, htc, by rw [hr]; rfl⟩
        have hko := h _ hm
        simp [hko]
    · intro h doc hd
      rw [List.mem_filterMap] at hd
      obtain ⟨tc, htc, hmk⟩ := hd
      have hun := h tc htc
      unfold caseUnevaluable at hun
      cases hr : resolve tc.document_id with
      | none => rw [hr] at hmk; cases hmk
      | some reg =>
        rw [hr] at hmk hun
        simp only [Option.map] at hmk
        injection hmk with hmk
        subst hmk
        simpa using hun
  have hrun := run_evaluation_eq oracle resolve tcs hcol
  constructor
  · rintro ⟨e, he⟩
    rw [← hdocs, ← hps]
    by_contra hne
    have hmapne : ps.map Prod.snd ≠ [] := by
      simpa [List.map_eq_nil_iff] using hne
    obtain ⟨rep, hrep⟩ := evaluate_classification_ok (ps.map Prod.snd)
      (ps.map Prod.fst) 1 (by simp)
    rw [hrun, if_neg hmapne, hrep] at he
    cases he
  · intro h
    have hps' : ps = [] := hps.mpr (hdocs.mpr h)
    refine ⟨"No test cases could be evaluated - check DB contents", ?_⟩
    rw [hrun, hps']
    rfl

/-- Fixtures for C5: a two-case benchmark where only doc-B resolves. -/
def c5TcA : TestCase :=
  { document_id := "doc-A", title := "A",
    expected := ⟨3, 1, [], [], false⟩, rationale := "r" }

def c5TcB : TestCase :=
  { document_id := "doc-B", title := "B",
    expected := ⟨3, 1, [], [], false⟩, rationale := "r" }

def c5Regulation : Regulation :=
  { title := "B title", source := some "sec",
    published_date := some "2024-01-01", content := some "text" }

def c5Resolve : String → Option Regulation :=
  fun k => if k = "doc-B" then some c5Regulation else none

def c5Oracle : DocumentInput → Except String ClassificationResult :=
  fun _ => .ok (gateResult 3 1)

/-- C5 counterexample: the unresolvable case doc-A is recorded in the
returned skip list with reason "not_in_db", not "not found". -/
theorem c5_counterexample :
    (run_evaluation c5Oracle c5Resolve [c5TcA, c5TcB]).map (fun p => p.2) =
      .ok [⟨"doc-A", "not_in_db"⟩] ∧
    (SkipRec.mk "doc-A" "not_in_db").reason ≠ "not found" := by
  constructor
  · obtain ⟨sk, ps, hcol, hsk, hps⟩ := collectResults_map_ok c5Oracle
      (resolvePhase c5Resolve [c5TcA, c5TcB]).tcmap
      (resolvePhase c5Resolve [c5TcA, c5TcB]).documents
      (resolvePhase_tcmap_isSome c5Resolve [c5TcA, c5TcB])
    have hdocs : (resolvePhase c5Resolve [c5TcA, c5TcB]).documents =
        [mkDocumentInput c5TcB c5Regulation] := by
      rw [resolvePhase_documents]; rfl
    have hskipped : (resolvePhase c5Resolve [c5TcA, c5TcB]).skipped =
        [⟨"doc-A", "not_in_db"⟩] := by
      rw [resolvePhase_skipped]; rfl
    have hsk' : sk = [] := by rw [hsk, hdocs]; rfl
    have hpsne : ps ≠ [] := by
      intro h
      have hko := (hps.mp h) (mkDocumentInput c5TcB c5Regulation)
        (by rw [hdocs]; exact List.mem_singleton_self _)
      cases hko
    obtain ⟨rep, hrep⟩ := evaluate_classification_ok (ps.map Prod.snd)
      (ps.map Prod.fst) 1 (by simp)
    rw [run_evaluation_eq c5Oracle c5Resolve [c5TcA, c5TcB] hcol,
      if_neg (by simpa [List.map_eq_nil_iff] using hpsne), hrep, hskipped, hsk']
    rfl
  · decide

/-- C5 amended: cases whose document does not resolve are recorded as skipped
with reason "not_in_db" (the log message says "not found in DB", but the
recorded reason string is "not_in_db") and the remaining cases continue;
`run_evaluation` raises exactly when zero cases could be evaluated; on a
fully unresolvable benchmark it raises and the skip list length equals the
benchmark size. -/
theorem c5_run_evaluation_skips_and_raises
    (oracle : DocumentInput → Except String ClassificationResult)
    (resolve : String → Option Regulation) (test_cases : List TestCase) :
    (resolvePhase resolve test_cases).skipped =
      (test_cases.filter (fun tc => (resolve tc.document_id).isNone)).map
        (fun tc => ⟨tc.document_id, "not_in_db"⟩) ∧
    (resolvePhase resolve test_cases).documents =
      test_cases.filterMap
        (fun tc => (resolve tc.document_id).map (mkDocumentInput tc)) ∧
    ((∃ e, run_evaluation oracle resolve test_cases = .error e) ↔
      ∀ tc ∈ test_cases, caseUnevaluable oracle resolve tc = true) ∧
    ((∀ tc ∈ test_cases, resolve tc.document_id = none) →
      (∃ e, run_evaluation oracle resolve test_cases = .error e) ∧
      (resolvePhase resolve test_cases).skipped.length = test_cases.length) := by
  refine ⟨resolvePhase_skipped resolve test_cases,
    resolvePhase_documents resolve test_cases,
    run_evaluation_error_iff oracle resolve test_cases, ?_⟩
  intro hall
  constructor
  · exact (run_evaluation_error_iff oracle resolve test_cases).mpr
      (fun tc htc => by unfold caseUnevaluable; rw [hall tc htc])
  · rw [resolvePhase_skipped, List.length_map,
      List.filter_eq_self.mpr (fun tc htc => by simp [hall tc htc])]

/-- Witness for C5: the amended theorem applied to a concrete fully
unresolvable one-case benchmark. -/
theorem c5_witness :
    (∃ e, run_evaluation c5Oracle (fun _ => none) [c5TcA] = .error e) ∧
    (resolvePhase (fun _ => none) [c5TcA]).skipped.length = 1 := by
  have h := (c5_run_evaluation_skips_and_raises c5Oracle (fun _ => none)
    [c5TcA]).2.2.2 (fun tc _ => rfl)
  exact ⟨h.1, h.2⟩

end RegAgent
